import Mathlib

/-!
Verification development for a WhatsApp/web bot booking backend.

The definitions below are a shallow embedding of the repository's core
logic:

* the storage-level slot reservation protocol
  (`is_time_slot_available`, `create_booking_safe`,
  `get_available_time_slots` from the SQL migrations);
* the Zod input validators (`booking-validator.ts`);
* the booking conversation engine (`booking-service.ts`,
  `booking-state-manager.ts`);
* the workflow engine (`workflow-engine.ts`);
* the dispatch routers (`bot-manager.ts` for the WhatsApp channel,
  `web-conversation-engine.ts` for the web channel);
* the channel adapters (`whatsapp-adapter.ts`, `messaging-adapter.ts`).

Modelling conventions:

* machine integers are `Nat`; times of day are minutes, wall-clock
  timestamps are milliseconds;
* database tables are Lean lists carried in an explicit state record;
  a sequential application of an operation to that state models the
  serialized execution the database provides;
* fallible paths are explicit in the return values; user-visible
  message *texts* that no claim depends on are abbreviated to short
  tags, while the two reservation error messages, which a claim does
  quote, are kept verbatim;
* collaborators outside the core (the system clock and `Date`
  arithmetic, the AI reply generator, the media library) enter as
  components of an `Env` record of abstract functions.
-/

/-! ## Generic string helpers (JS semantics used by the sources) -/

/-- Prefix test on character lists (used to model JS `includes`). -/
def isPrefixList : List Char → List Char → Bool
  | [], _ => true
  | _ :: _, [] => false
  | a :: as, b :: bs => a == b && isPrefixList as bs

/-- Substring containment on character lists: models JS
`hay.includes(needle)`. -/
def containsSub : List Char → List Char → Bool
  | [], needle => needle.isEmpty
  | c :: rest, needle => isPrefixList needle (c :: rest) || containsSub rest needle

/-- JS `hay.includes(needle)` on strings. -/
def strIncludes (hay needle : String) : Bool :=
  containsSub hay.toList needle.toList

/-- Lowercasing, character by character (kernel-reducible stand-in
for `toLowerCase`). -/
def strLower (s : String) : String :=
  String.mk (s.toList.map Char.toLower)

/-- The whitespace class trimmed by `trim`. -/
def isTrimSpace (c : Char) : Bool :=
  c = ' ' || c = '\t' || c = '\n' || c = '\r'

/-- Trimming leading and trailing whitespace (kernel-reducible
stand-in for `trim`). -/
def strTrim (s : String) : String :=
  String.mk (((s.toList.dropWhile isTrimSpace).reverse.dropWhile isTrimSpace).reverse)

/-- Decimal value of a digit string (callers guard with `allDigits`,
mirroring `parseInt` on an all-digit input). -/
def strToNat (s : String) : Nat :=
  s.toList.foldl (fun n c => n * 10 + (c.toNat - 48)) 0

/-- Split a character list at the dots (for the decimal-fraction case
of JS `Number`). -/
def splitOnDot : List Char → List (List Char)
  | [] => [[]]
  | c :: rest =>
    let r := splitOnDot rest
    if c = '.' then [] :: r
    else
      match r with
      | h :: t => (c :: h) :: t
      | [] => [[c]]

/-- Character class of the name regex in `booking-validator.ts`:
letters, whitespace, dot, hyphen, apostrophe. -/
def isNameChar (c : Char) : Bool :=
  c.isAlpha || c = ' ' || c = '\t' || c = '\n' || c = '\r' ||
    c = '.' || c = '-' || c = Char.ofNat 39

/-- Every character satisfies the name class and the string is
non-empty (the `+` of the regex). -/
def allNameChars (s : String) : Bool :=
  s.length ≥ 1 && s.toList.all isNameChar

/-- All characters are ASCII digits and the string is non-empty
(the regex `^\d+$`). -/
def allDigits (s : String) : Bool :=
  s.length ≥ 1 && s.toList.all Char.isDigit

/-! ## Storage layer: bookings table and the reservation protocol

Embedding of the SQL migrations.  A `Booking` is a row of the
`bookings` table.  Dates are opaque strings (the engine only compares
them for equality), times of day are minutes. -/

structure Booking where
  business_id : String
  bot_id : String
  customer_name : String
  customer_phone : String
  booking_for : String
  gender : String
  service_id : Option String
  service_name : String
  service_price : Nat
  booking_date : String
  booking_time : Nat
  duration : Nat
  status : String
  notes : Option String
  deriving DecidableEq, Repr

/-- The status filter of the partial unique index
`idx_bookings_unique_slot` and of `is_time_slot_available`:
`status IN ('pending', 'confirmed')`. -/
def statusBlocks (s : String) : Bool :=
  s = "pending" || s = "confirmed"

/-- A row that occupies the slot `(businessId, date, time)` under the
partial unique index. -/
def occupiesSlot (businessId date : String) (time : Nat) (b : Booking) : Bool :=
  b.business_id = businessId && b.booking_date = date &&
    b.booking_time = time && statusBlocks b.status

/-- SQL `is_time_slot_available`: true iff no pending/confirmed
booking exists for the exact triple. -/
def is_time_slot_available (bookings : List Booking)
    (businessId date : String) (time : Nat) : Bool :=
  (bookings.countP (fun b => occupiesSlot businessId date time b)) = 0

/-- Argument record of SQL `create_booking_safe` (the `p_*`
parameters). -/
structure CreateBookingArgs where
  business_id : String
  bot_id : String
  customer_name : String
  customer_phone : String
  booking_for : String
  gender : String
  service_id : Option String
  service_name : String
  service_price : Nat
  booking_date : String
  booking_time : Nat
  duration : Nat
  notes : Option String
  deriving DecidableEq, Repr

/-- Result row of SQL `create_booking_safe`:
`TABLE (success BOOLEAN, booking_id UUID, error_message TEXT)`.
Booking ids are positions in the table. -/
structure CreateBookingResult where
  success : Bool
  booking_id : Option Nat
  error_message : Option String
  deriving DecidableEq, Repr

/-- The row inserted by `create_booking_safe` (status hard-coded to
`'pending'`). -/
def pendingRow (a : CreateBookingArgs) : Booking :=
  { business_id := a.business_id, bot_id := a.bot_id,
    customer_name := a.customer_name, customer_phone := a.customer_phone,
    booking_for := a.booking_for, gender := a.gender,
    service_id := a.service_id, service_name := a.service_name,
    service_price := a.service_price, booking_date := a.booking_date,
    booking_time := a.booking_time, duration := a.duration,
    status := "pending", notes := a.notes }

/-- SQL `create_booking_safe`.  `visible` is the snapshot the
transaction reads for the availability pre-check; `race` holds rows
committed by concurrent transactions between that read and the insert,
so the unique index is checked against `visible ++ race`.  A serial
execution takes `race = []`.  Returns the result row together with the
committed table.  The `WHEN OTHERS` branch of the source is
unreachable here because the only error the model can raise is the
unique violation. -/
def create_booking_safe (visible race : List Booking)
    (a : CreateBookingArgs) : CreateBookingResult × List Booking :=
  let committed := visible ++ race
  if ¬ is_time_slot_available visible a.business_id a.booking_date a.booking_time then
    ({ success := false, booking_id := none,
       error_message := some "This time slot is no longer available. Please select another time." },
     committed)
  else if ¬ is_time_slot_available committed a.business_id a.booking_date a.booking_time then
    -- insert hits the partial unique index: EXCEPTION WHEN unique_violation
    ({ success := false, booking_id := none,
       error_message := some "This time slot was just booked by someone else. Please select another time." },
     committed)
  else
    ({ success := true, booking_id := some committed.length, error_message := none },
     committed ++ [pendingRow a])

/-- Serialized execution of a sequence of `create_booking_safe` calls
(each one sees everything committed before it, with no interleaving
inside a call: this is what the unique index guarantees). -/
def runAttempts (bookings : List Booking) :
    List CreateBookingArgs → List CreateBookingResult × List Booking
  | [] => ([], bookings)
  | a :: rest =>
    let (r, bookings') := create_booking_safe bookings [] a
    let (rs, bookingsF) := runAttempts bookings' rest
    (r :: rs, bookingsF)

/-! ## Storage layer: availability computation

Embedding of SQL `get_available_time_slots`
(`002_fix_time_slots_function.sql`). -/

/-- A row of `business_time_slots` relevant to slot generation
(times in minutes). -/
structure TimeConfig where
  start_time : Nat
  end_time : Nat
  slot_duration : Nat
  deriving DecidableEq, Repr

/-- A result row of `get_available_time_slots`. -/
structure Slot where
  slot_time : Nat
  is_available : Bool
  deriving DecidableEq, Repr

/-- The `generate_series(0, (end-start)/60 - duration, duration)`
offsets added to `start_time`. -/
def slotTimes (tc : TimeConfig) : List Nat :=
  if tc.slot_duration = 0 then []
  else if tc.end_time < tc.start_time + tc.slot_duration then []
  else
    (List.range ((tc.end_time - tc.start_time - tc.slot_duration) / tc.slot_duration + 1)).map
      (fun k => tc.start_time + k * tc.slot_duration)

/-- SQL `get_available_time_slots`: the weekly template row for the
business and weekday is looked up through `tcLookup`; a generated slot
is available iff the `LEFT JOIN` against pending/confirmed bookings of
that business and date finds no row with the same time. -/
def get_available_time_slots (tcLookup : String → Nat → Option TimeConfig)
    (bookings : List Booking) (businessId date : String) (dow : Nat) : List Slot :=
  match tcLookup businessId dow with
  | none => []
  | some tc =>
    (slotTimes tc).map (fun t =>
      { slot_time := t,
        is_available := bookings.all (fun b => !(occupiesSlot businessId date t b)) })

/-! ## Basic lemmas about the reservation protocol -/

theorem is_time_slot_available_iff (bookings : List Booking)
    (businessId date : String) (time : Nat) :
    is_time_slot_available bookings businessId date time = true ↔
      ∀ b ∈ bookings, occupiesSlot businessId date time b = false := by
  unfold is_time_slot_available
  rw [decide_eq_true_iff, List.countP_eq_zero]
  constructor
  · intro h b hb
    simpa using h b hb
  · intro h b hb
    simp [h b hb]

theorem create_booking_safe_taken (visible : List Booking)
    (a : CreateBookingArgs)
    (h : is_time_slot_available visible a.business_id a.booking_date a.booking_time = false) :
    create_booking_safe visible [] a =
      ({ success := false, booking_id := none,
         error_message := some "This time slot is no longer available. Please select another time." },
       visible) := by
  unfold create_booking_safe
  simp [h]

theorem create_booking_safe_free (visible : List Booking)
    (a : CreateBookingArgs)
    (h : is_time_slot_available visible a.business_id a.booking_date a.booking_time = true) :
    create_booking_safe visible [] a =
      ({ success := true, booking_id := some visible.length, error_message := none },
       visible ++ [pendingRow a]) := by
  unfold create_booking_safe
  simp [h]

/-- After a successful insert for a triple, the slot is occupied. -/
theorem slot_occupied_after_insert (visible : List Booking) (a : CreateBookingArgs) :
    is_time_slot_available (visible ++ [pendingRow a])
      a.business_id a.booking_date a.booking_time = false := by
  unfold is_time_slot_available
  simp [List.countP_append, List.countP_cons, occupiesSlot, pendingRow, statusBlocks]

/-- Any sequence of serialized attempts against an occupied slot all
fail and leave the table unchanged. -/
theorem runAttempts_occupied (biz date : String) (time : Nat) :
    ∀ (atts : List CreateBookingArgs) (bookings : List Booking),
      (∀ a ∈ atts, a.business_id = biz ∧ a.booking_date = date ∧ a.booking_time = time) →
      is_time_slot_available bookings biz date time = false →
      (runAttempts bookings atts).1.countP (fun r => r.success) = 0 ∧
        (runAttempts bookings atts).2 = bookings := by
  intro atts
  induction atts with
  | nil => intro bookings _ _; simp [runAttempts]
  | cons a rest ih =>
    intro bookings hsame hocc
    obtain ⟨hb, hd, ht⟩ := hsame a (by simp)
    have hocc' : is_time_slot_available bookings a.business_id a.booking_date a.booking_time = false := by
      rw [hb, hd, ht]; exact hocc
    have hstep := create_booking_safe_taken bookings a hocc'
    have ihr := ih bookings (fun x hx => hsame x (by simp [hx])) hocc
    simp only [runAttempts, hstep]
    simp only [List.countP_cons]
    constructor
    · simp [ihr.1]
    · exact ihr.2

/-- C1: for a fixed `(businessId, bookingDate, bookingTime)` triple,
among any serialized sequence of `create_booking_safe` attempts
starting from a free slot, exactly one succeeds and it inserts the
single new row, with status `'pending'`; any attempt made while a
pending/confirmed reservation exists for the triple fails with the
slot-taken message instead of a fault; and a unique-index violation
during the insert (a concurrent commit between pre-check and insert)
is translated into the same `success = false` outcome. -/
theorem create_booking_safe_no_double_booking
    (bookings : List Booking) (a : CreateBookingArgs)
    (rest : List CreateBookingArgs) (biz date : String) (time : Nat)
    (hsame : ∀ x ∈ a :: rest,
      x.business_id = biz ∧ x.booking_date = date ∧ x.booking_time = time)
    (hfree : is_time_slot_available bookings biz date time = true) :
    ((runAttempts bookings (a :: rest)).1.countP (fun r => r.success) = 1 ∧
      (runAttempts bookings (a :: rest)).2 = bookings ++ [pendingRow a]) ∧
    (∀ (visible : List Booking) (x : CreateBookingArgs),
      is_time_slot_available visible x.business_id x.booking_date x.booking_time = false →
      (create_booking_safe visible [] x).1 =
        { success := false, booking_id := none,
          error_message := some "This time slot is no longer available. Please select another time." }) ∧
    (∀ (visible race : List Booking) (x : CreateBookingArgs),
      is_time_slot_available visible x.business_id x.booking_date x.booking_time = true →
      is_time_slot_available (visible ++ race) x.business_id x.booking_date x.booking_time = false →
      (create_booking_safe visible race x).1 =
        { success := false, booking_id := none,
          error_message := some "This time slot was just booked by someone else. Please select another time." }) := by
  refine ⟨?_, ?_, ?_⟩
  · obtain ⟨hb, hd, ht⟩ := hsame a (by simp)
    have hfree' : is_time_slot_available bookings a.business_id a.booking_date a.booking_time = true := by
      rw [hb, hd, ht]; exact hfree
    have hstep := create_booking_safe_free bookings a hfree'
    have hocc : is_time_slot_available (bookings ++ [pendingRow a]) biz date time = false := by
      have := slot_occupied_after_insert bookings a
      rw [hb, hd, ht] at this; exact this
    have hrest := runAttempts_occupied biz date time rest (bookings ++ [pendingRow a])
      (fun x hx => hsame x (by simp [hx])) hocc
    simp only [runAttempts, hstep]
    constructor
    · simp [List.countP_cons, hrest.1]
    · exact hrest.2
  · intro visible x hx
    have := create_booking_safe_taken visible x hx
    simpa using congrArg Prod.fst this
  · intro visible race x hpre hcommitted
    unfold create_booking_safe
    simp [hpre, hcommitted]

/-- Concrete witness for `create_booking_safe_no_double_booking`:
two attempts for the same slot on an empty table. -/
def c1arg1 : CreateBookingArgs :=
  { business_id := "b1", bot_id := "bot1", customer_name := "Jane Doe",
    customer_phone := "111", booking_for := "self", gender := "female",
    service_id := some "s1", service_name := "Haircut", service_price := 500,
    booking_date := "2025-10-20", booking_time := 600, duration := 30,
    notes := none }

/-- Second attempt for the same slot, different customer. -/
def c1arg2 : CreateBookingArgs :=
  { c1arg1 with
      customer_name := "John Roe"
      customer_phone := "222"
      gender := "male" }

/-- Witness: on an empty table, of the two serialized attempts for
slot `(b1, 2025-10-20, 600)` exactly one succeeds, and the table ends
with the single pending row of the first attempt. -/
theorem create_booking_safe_no_double_booking_witness :
    (runAttempts [] [c1arg1, c1arg2]).1.countP (fun r => r.success) = 1 ∧
      (runAttempts [] [c1arg1, c1arg2]).2 = [pendingRow c1arg1] :=
  (create_booking_safe_no_double_booking [] c1arg1 [c1arg2] "b1" "2025-10-20" 600
    (by decide) (by decide)).1

/-! ## C4: availability vs. non-cancelled reservations -/

/-- Weekly template used in the C4 counterexample: Mondays 10:00 to
11:00 in 30-minute slots for business `b1`. -/
def c4tc : String → Nat → Option TimeConfig := fun b d =>
  if b = "b1" && d = 1 then some { start_time := 600, end_time := 660, slot_duration := 30 }
  else none

/-- A reservation whose status is `completed`: non-cancelled, yet
outside the `('pending','confirmed')` filter of the availability
query. -/
def c4row : Booking :=
  { business_id := "b1", bot_id := "bot1", customer_name := "Jane Doe",
    customer_phone := "111", booking_for := "self", gender := "female",
    service_id := some "s1", service_name := "Haircut", service_price := 500,
    booking_date := "2025-10-20", booking_time := 600, duration := 30,
    status := "completed", notes := none }

/-- C4 counterexample: the slot `(b1, 2025-10-20, 600)` is reported
available although a non-cancelled (status `completed`) reservation
exists for that exact triple, so availability is *not* equivalent to
the absence of a non-cancelled reservation. -/
theorem get_available_time_slots_counterexample :
    (get_available_time_slots c4tc [c4row] "b1" "2025-10-20" 1).head? =
      some { slot_time := 600, is_available := true } ∧
    c4row.status ≠ "cancelled" ∧ c4row.business_id = "b1" ∧
    c4row.booking_date = "2025-10-20" ∧ c4row.booking_time = 600 := by
  refine ⟨?_, by decide, rfl, rfl, rfl⟩
  decide

/-- C4 (amended): a generated slot is reported available iff no
*pending or confirmed* reservation exists for that exact
`(businessId, date, time)` triple (reservations with status
`cancelled`, `completed` or `no_show` do not block the slot). -/
theorem get_available_time_slots_amended
    (tcLookup : String → Nat → Option TimeConfig) (bookings : List Booking)
    (businessId date : String) (dow : Nat) (s : Slot)
    (hs : s ∈ get_available_time_slots tcLookup bookings businessId date dow) :
    s.is_available = true ↔
      ∀ b ∈ bookings, ¬(b.business_id = businessId ∧ b.booking_date = date ∧
        b.booking_time = s.slot_time ∧ (b.status = "pending" ∨ b.status = "confirmed")) := by
  unfold get_available_time_slots at hs
  cases h : tcLookup businessId dow with
  | none => rw [h] at hs; simp at hs
  | some tc =>
    rw [h] at hs
    obtain ⟨t, _, rfl⟩ := List.mem_map.mp hs
    simp only [List.all_eq_true, Bool.not_eq_true']
    constructor
    · intro hall b hb hcontra
      have hocc := hall b hb
      obtain ⟨h1, h2, h3, h4⟩ := hcontra
      unfold occupiesSlot statusBlocks at hocc
      rcases h4 with h4 | h4 <;> simp [h1, h2, h3, h4] at hocc
    · intro hnone b hb
      have := hnone b hb
      unfold occupiesSlot statusBlocks
      by_contra hocc
      rw [Bool.not_eq_false] at hocc
      simp only [Bool.and_eq_true, Bool.or_eq_true, decide_eq_true_eq] at hocc
      exact this ⟨hocc.1.1.1, hocc.1.1.2, hocc.1.2, hocc.2⟩

/-- Witness for `get_available_time_slots_amended`: a free template
slot on an empty bookings table is available. -/
theorem get_available_time_slots_amended_witness :
    ((get_available_time_slots c4tc [] "b1" "2025-10-20" 1).head? =
        some { slot_time := 600, is_available := true }) ∧
      ({ slot_time := 600, is_available := true } : Slot).is_available = true :=
  ⟨by decide,
    (get_available_time_slots_amended c4tc [] "b1" "2025-10-20" 1
      { slot_time := 600, is_available := true } (by decide)).mpr
      (by intro b hb; simp at hb)⟩

/-! ## Input validators (`booking-validator.ts`)

Zod schemas run their checks in declaration order: `min`/`max` apply
to the raw input, a later `refine` applies to the transformed value.
`validationErrors`/`retryCount` of the conversation-state schema are
reset on every parse and are omitted. -/

inductive BookingState
  | idle | collecting_name | collecting_booking_for | collecting_gender
  | showing_services | collecting_service | showing_dates | collecting_date
  | showing_time_slots | collecting_time | confirming | completed
  deriving DecidableEq, Repr

/-- The `collectedData` map of a booking conversation. -/
structure CollectedData where
  customerName : Option String := none
  customerPhone : String
  bookingFor : Option String := none
  gender : Option String := none
  serviceId : Option String := none
  serviceName : Option String := none
  servicePrice : Option Nat := none
  serviceDuration : Option Nat := none
  bookingDate : Option String := none
  bookingTime : Option Nat := none
  deriving DecidableEq, Repr

/-- In-memory conversation state (`ConversationState` of the source). -/
structure ConversationState where
  currentStep : BookingState
  collectedData : CollectedData
  deriving DecidableEq, Repr

/-- `nameSchema`: 2 to 100 raw characters, name character class on the
raw input, value is the trimmed input. -/
def validateName (input : String) : Option String :=
  if 2 ≤ input.length && input.length ≤ 100 && allNameChars input
  then some (strTrim input) else none

/-- `bookingForSchema`: 2 to 100 raw characters, then the trimmed
lowercased value must be `self`/`myself`/`me` or match the name
character class; the value is the trimmed lowercased input with no
further normalization. -/
def validateBookingFor (input : String) : Option String :=
  let t := strLower (strTrim input)
  if 2 ≤ input.length && input.length ≤ 100 &&
      (t = "self" || t = "myself" || t = "me" || allNameChars t)
  then some t else none

/-- `genderSchema`: trimmed lowercased input among
`male/female/other/m/f/o`, mapped to the full word. -/
def validateGender (input : String) : Option String :=
  let t := strLower (strTrim input)
  if t = "male" || t = "m" then some "male"
  else if t = "female" || t = "f" then some "female"
  else if t = "other" || t = "o" then some "other"
  else none

/-- `serviceSelectionSchema`: non-empty raw input, value trimmed. -/
def validateServiceSelection (input : String) : Option String :=
  if 1 ≤ input.length then some (strTrim input) else none

/-- `confirmationSchema`: affirmative words map to `true`, negative
words to `false`, anything else is invalid. -/
def validateConfirmation (input : String) : Option Bool :=
  let t := strLower (strTrim input)
  if t = "confirm" || t = "yes" || t = "y" || t = "ok" || t = "okay" then some true
  else if t = "cancel" || t = "no" || t = "n" then some false
  else none

/-- The regex `^\d{4}-\d{2}-\d{2}$` of `handleDateInput`. -/
def isIsoDateFormat (s : String) : Bool :=
  match s.toList with
  | [a, b, c, d, e, f, g, h, i, j] =>
    a.isDigit && b.isDigit && c.isDigit && d.isDigit && e = '-' &&
      f.isDigit && g.isDigit && h = '-' && i.isDigit && j.isDigit
  | _ => false

/-! ## Channel adapters (`whatsapp-adapter.ts`, `messaging-adapter.ts`)

Each send method is modelled as a function of the transport outcome
(`transportOk`): it returns the outbound message records persisted by
`saveMessage` together with whether the method rethrows.  In both
sources the transport send comes first inside the `try`, so a
transport failure jumps to the `catch` (which logs and rethrows)
before `saveMessage` runs; `saveMessage` itself swallows database
errors, which we model as the database write succeeding. -/

structure OutboundRecord where
  channel : String
  content : String
  messageType : String
  metadata : Option (List (String × String))
  deriving DecidableEq, Repr

/-- JS `a || b` on an optional string (empty string is falsy). -/
def jsOr (o : Option String) (d : String) : String :=
  match o with
  | some s => if s = "" then d else s
  | none => d

/-- `WhatsAppAdapter.sendText`: transport send, then `saveMessage`. -/
def waSendText (transportOk : Bool) (text : String)
    (metadata : Option (List (String × String))) : List OutboundRecord × Bool :=
  if transportOk then
    ([{ channel := "whatsapp", content := text, messageType := "text",
        metadata := metadata }], false)
  else ([], true)

/-- `WhatsAppAdapter.sendRich`: transport send only, no `saveMessage`
call anywhere in the method. -/
def waSendRich (transportOk : Bool) : List OutboundRecord × Bool :=
  if transportOk then ([], false) else ([], true)

/-- `WebAdapter.sendText`: WebSocket event, then `saveMessage`. -/
def webSendText (transportOk : Bool) (text : String)
    (metadata : Option (List (String × String))) : List OutboundRecord × Bool :=
  if transportOk then
    ([{ channel := "web", content := text, messageType := "text",
        metadata := metadata }], false)
  else ([], true)

/-- `WebAdapter.sendRich`: WebSocket event only, no `saveMessage`. -/
def webSendRich (transportOk : Bool) : List OutboundRecord × Bool :=
  if transportOk then ([], false) else ([], true)

/-- `WebAdapter.sendDocument`: WebSocket event, then `saveMessage`
with the caption (or a fallback naming the file) and the file
metadata. -/
def webSendDocument (transportOk : Bool) (url : String)
    (fileName mimeType caption : Option String) : List OutboundRecord × Bool :=
  if transportOk then
    ([{ channel := "web",
        content := jsOr caption ("Document: " ++ jsOr fileName "document.pdf"),
        messageType := "document",
        metadata := some [("url", url), ("fileName", jsOr fileName ""),
                          ("mimeType", jsOr mimeType "")] }], false)
  else ([], true)

/-- C7 counterexample: a successful `WhatsAppAdapter.sendRich` call
persists no outbound record at all, and a `sendText` call whose
transport delivery fails persists no record either (the claim requires
a record in both situations). -/
theorem adapter_outbound_log_counterexample :
    waSendRich true = ([], false) ∧ waSendText false "hello" none = ([], true) := by
  constructor <;> rfl

/-- C7 (amended): `sendText` on both channels and the web channel's
`sendDocument` persist exactly one outbound record with the channel,
content and optional metadata precisely when the transport send
succeeds; on transport failure they rethrow without persisting, and
`sendRich` never persists a record on either channel (the WhatsApp
adapter implements no `sendDocument`). -/
theorem adapter_outbound_log_amended (transportOk : Bool) (text : String)
    (metadata : Option (List (String × String))) :
    ((waSendText transportOk text metadata).1.length = 1 ↔ transportOk = true) ∧
    ((webSendText transportOk text metadata).1.length = 1 ↔ transportOk = true) ∧
    (waSendText true text metadata).1 =
      [{ channel := "whatsapp", content := text, messageType := "text",
         metadata := metadata }] ∧
    (webSendText true text metadata).1 =
      [{ channel := "web", content := text, messageType := "text",
         metadata := metadata }] ∧
    (waSendText false text metadata) = ([], true) ∧
    (webSendText false text metadata) = ([], true) ∧
    (waSendRich transportOk).1 = [] ∧ (webSendRich transportOk).1 = [] ∧
    (∀ url fileName mimeType caption,
      ((webSendDocument transportOk url fileName mimeType caption).1.length = 1 ↔
        transportOk = true)) := by
  cases transportOk <;>
    refine ⟨by simp [waSendText], by simp [webSendText], rfl, rfl, rfl, rfl,
      by simp [waSendRich], by simp [webSendRich], ?_⟩ <;>
    intro url fileName mimeType caption <;> simp [webSendDocument]

/-- Witness for `adapter_outbound_log_amended` at a concrete call. -/
theorem adapter_outbound_log_amended_witness :
    (waSendText true "hi" none).1.length = 1 :=
  ((adapter_outbound_log_amended true "hi" none).1).mpr rfl

/-! ## Session store and engine state

`Db` is the durable state shared by the engines: the per-bot settings
row, the `booking_conversations` and `workflow_conversations` tables,
the published workflow definitions, the `bookings` table and the
inquiry count.  `stepWrites` is a ghost trace of the `current_step`
value of every `BookingStateManager.updateState` write, so theorems
can speak about persisted intermediate states.  `Env` gathers the
collaborators outside the core: the active-services query result (in
display order), the weekly template lookup, `Date` arithmetic on the
system clock, the AI reply generator and the media library. -/

structure BotSettings where
  booking_enabled : Option Bool := none
  booking_trigger_keywords : Option (List String) := none
  booking_require_booking_for : Option Bool := none
  booking_require_gender : Option Bool := none
  booking_confirmation_message : Option String := none
  workflow_enabled : Option Bool := none
  deriving DecidableEq, Repr

/-- A row of `booking_conversations`. -/
structure BookingConvoRow where
  botId : String
  businessId : String
  customerPhone : String
  collectedData : CollectedData
  currentStep : BookingState
  isCompleted : Bool
  expiresAt : Nat
  deriving DecidableEq, Repr

/-- An active `business_services` row (fields the engine reads). -/
structure Service where
  id : String
  name : String
  price : Option Nat
  duration : Option Nat
  deriving DecidableEq, Repr

inductive StepType
  | collect_field | ai_response | show_options | share_media | conditional
  | start_booking
  deriving DecidableEq, Repr

structure OptionItem where
  label : String
  value : Option String
  deriving DecidableEq, Repr

/-- A workflow step (`steps` array element of a workflow definition). -/
structure WorkflowStep where
  id : Option String := none
  type : StepType
  prompt_message : Option String := none
  next : Option String := none
  collect_field_key : Option String := none
  options_field_key : Option String := none
  options : List OptionItem := []
  deriving DecidableEq, Repr

/-- A `workflows` row. -/
structure WorkflowRecord where
  id : Nat
  botId : String
  isActive : Bool
  published : Bool
  triggerKeywords : List String
  steps : List WorkflowStep
  saveToDatabase : Bool
  deriving DecidableEq, Repr

/-- A row of `workflow_conversations`. -/
structure WorkflowConvoRow where
  id : Nat
  botId : String
  userKey : String
  workflowId : Nat
  currentStepId : String
  state : List (String × String)
  isCompleted : Bool
  channel : String
  deriving DecidableEq, Repr

structure Db where
  settings : BotSettings
  bookingConvos : List BookingConvoRow
  workflowConvos : List WorkflowConvoRow
  workflows : List WorkflowRecord
  bookings : List Booking
  inquiries : Nat
  stepWrites : List BookingState
  nextWorkflowConvoId : Nat
  deriving DecidableEq, Repr

structure Env where
  services : String → List Service
  timeConfig : String → Nat → Option TimeConfig
  todayPlus : Nat → String
  dayOfWeek : String → Nat
  isPastDate : String → Bool
  aiReply : String → String
  mediaSends : List String

/-! ## Booking state manager (`booking-state-manager.ts`) -/

/-- The row filter `bot_id = ... AND customer_phone = ... AND
is_completed = false`. -/
def bkMatches (botId userKey : String) (c : BookingConvoRow) : Bool :=
  c.botId = botId && c.customerPhone = userKey && !c.isCompleted

def activeBookingConvo (db : Db) (botId userKey : String) : Option BookingConvoRow :=
  db.bookingConvos.find? (bkMatches botId userKey)

/-- `BookingStateManager.hasActiveConversation`. -/
def hasActiveConversation (db : Db) (botId userKey : String) : Bool :=
  (activeBookingConvo db botId userKey).isSome

/-- The 30-minute expiry window, in milliseconds. -/
def expiryWindowMs : Nat := 30 * 60 * 1000

/-- An UPDATE against the active rows of one `(bot, user)` pair. -/
def mapActiveBk (db : Db) (botId userKey : String)
    (f : BookingConvoRow → BookingConvoRow) : Db :=
  { db with bookingConvos := (db.bookingConvos.map
      (fun c => if bkMatches botId userKey c then f c else c)) }

/-- `BookingStateManager.updateState`: write `conversation_state` and
`current_step`; the written step is also recorded in the ghost
trace. -/
def updateState (db : Db) (botId userKey : String) (st : ConversationState) : Db :=
  let db' := mapActiveBk db botId userKey
    (fun c => { c with collectedData := st.collectedData, currentStep := st.currentStep })
  { db' with stepWrites := db'.stepWrites ++ [st.currentStep] }

/-- `BookingStateManager.completeConversation`. -/
def completeConversation (db : Db) (botId userKey : String) : Db :=
  mapActiveBk db botId userKey
    (fun c => { c with isCompleted := true, currentStep := BookingState.completed })

/-- `BookingStateManager.cancelConversation`. -/
def cancelConversation (db : Db) (botId userKey : String) : Db :=
  mapActiveBk db botId userKey
    (fun c => { c with isCompleted := true, currentStep := BookingState.idle })

/-- `BookingStateManager.extendExpiry` with the default 30 minutes. -/
def extendExpiry (db : Db) (botId userKey : String) (now : Nat) : Db :=
  mapActiveBk db botId userKey (fun c => { c with expiresAt := now + expiryWindowMs })

/-- `BookingStateManager.getOrCreateState`. -/
def getOrCreateState (db : Db) (botId businessId userKey : String) (now : Nat) :
    ConversationState × Db :=
  match activeBookingConvo db botId userKey with
  | some c => ({ currentStep := c.currentStep, collectedData := c.collectedData }, db)
  | none =>
    let init : ConversationState :=
      { currentStep := BookingState.idle, collectedData := { customerPhone := userKey } }
    (init,
      { db with bookingConvos := db.bookingConvos ++
          [{ botId := botId, businessId := businessId, customerPhone := userKey,
             collectedData := init.collectedData, currentStep := init.currentStep,
             isCompleted := false, expiresAt := now + expiryWindowMs }] })

/-- `BookingStateManager.cleanupExpiredConversations`: mark every
non-completed conversation strictly past its expiry as completed.  It
returns the updated store, the (empty) list of messages sent through a
channel adapter, and the number of rows marked. -/
def cleanupExpiredConversations (db : Db) (now : Nat) : Db × List String × Nat :=
  ({ db with bookingConvos := (db.bookingConvos.map
      (fun c => if c.expiresAt < now && !c.isCompleted then { c with isCompleted := true } else c)) },
   [],
   db.bookingConvos.countP (fun c => c.expiresAt < now && !c.isCompleted))

/-! ## Booking service (`booking-service.ts`)

Handlers return the updated store and the texts sent through the
adapter.  Message texts that no claim quotes are abbreviated to
`MSG_*` tags. -/

/-- `BookingService.isBookingTrigger`. -/
def isBookingTrigger (message : String) (keywords : List String) : Bool :=
  keywords.any (fun k => strIncludes (strLower message) (strLower k))

def defaultBookingKeywords : List String :=
  ["book", "booking", "appointment", "schedule", "reserve"]

/-- `BookingService.isBookingEnabled`: `booking_enabled === true`. -/
def isBookingEnabled (db : Db) : Bool :=
  db.settings.booking_enabled = some true

/-- `BookingService.getBookingKeywords` with its default list. -/
def getBookingKeywords (db : Db) : List String :=
  db.settings.booking_trigger_keywords.getD defaultBookingKeywords

/-- `booking_require_booking_for !== false` (absence means on). -/
def requireBookingFor (s : BotSettings) : Bool :=
  !(s.booking_require_booking_for == some false)

/-- `booking_require_gender !== false` (absence means on). -/
def requireGender (s : BotSettings) : Bool :=
  !(s.booking_require_gender == some false)

/-- `workflow_enabled !== false` (absence means on). -/
def workflowEnabled (s : BotSettings) : Bool :=
  !(s.workflow_enabled == some false)

/-- JS `a || b` for numbers (0 is falsy). -/
def jsOrNat (o : Option Nat) (d : Nat) : Nat :=
  match o with
  | some n => if n = 0 then d else n
  | none => d

/-- `BookingService.startBooking`. -/
def startBooking (db : Db) (botId userKey : String) (st : ConversationState) :
    Db × List String :=
  let st1 := { st with currentStep := BookingState.collecting_name }
  (updateState db botId userKey st1, ["MSG_ASK_NAME"])

/-- `BookingService.handleCancel`. -/
def handleCancel (db : Db) (botId userKey : String) : Db × List String :=
  (cancelConversation db botId userKey, ["MSG_CANCELLED"])

/-- `BookingService.showServices`: cancel with an apology when no
active service exists, otherwise present the menu and move to
`COLLECTING_SERVICE`. -/
def showServices (env : Env) (db : Db) (botId businessId userKey : String)
    (st : ConversationState) : Db × List String :=
  let services := env.services businessId
  if services.isEmpty then
    (cancelConversation db botId userKey, ["MSG_NO_SERVICES"])
  else
    let st1 := { st with currentStep := BookingState.collecting_service }
    (updateState db botId userKey st1, ["MSG_SERVICES_MENU"])

/-- `BookingService.showAvailableDates`: present the rolling 7-day
window and move to `COLLECTING_DATE`. -/
def showAvailableDates (db : Db) (botId userKey : String)
    (st : ConversationState) : Db × List String :=
  let st1 := { st with currentStep := BookingState.collecting_date }
  (updateState db botId userKey st1, ["MSG_DATES_MENU"])

/-- `BookingService.showAvailableTimeSlots`: fetch availability for
the selected date; with no template or no free slot, route back to
date selection, otherwise present the list and move to
`COLLECTING_TIME`. -/
def showAvailableTimeSlots (env : Env) (db : Db) (botId businessId userKey : String)
    (st : ConversationState) : Db × List String :=
  let date := st.collectedData.bookingDate.getD ""
  let slots := get_available_time_slots env.timeConfig db.bookings businessId date
    (env.dayOfWeek date)
  if slots.isEmpty then
    let st1 := { st with currentStep := BookingState.showing_dates }
    let db1 := updateState db botId userKey st1
    let (db2, sent2) := showAvailableDates db1 botId userKey st1
    (db2, "MSG_NO_SLOTS_FOR_DATE" :: sent2)
  else
    let availableSlots := slots.filter (fun s => s.is_available)
    if availableSlots.isEmpty then
      let st1 := { st with currentStep := BookingState.showing_dates }
      let db1 := updateState db botId userKey st1
      let (db2, sent2) := showAvailableDates db1 botId userKey st1
      (db2, "MSG_ALL_SLOTS_BOOKED" :: sent2)
    else
      let st1 := { st with currentStep := BookingState.collecting_time }
      (updateState db botId userKey st1, ["MSG_TIME_SLOTS_MENU"])

/-- `BookingService.handleNameInput`: the `booking_require_booking_for`
flag is read from the settings row *at this turn*. -/
def handleNameInput (db : Db) (botId userKey : String) (message : String)
    (st : ConversationState) : Db × List String :=
  match validateName message with
  | none => (db, ["MSG_INVALID_NAME"])
  | some name =>
    let st1 := { st with collectedData := { st.collectedData with customerName := some name } }
    if requireBookingFor db.settings then
      let st2 := { st1 with currentStep := BookingState.collecting_booking_for }
      (updateState db botId userKey st2, ["MSG_ASK_BOOKING_FOR"])
    else
      let st2 := { st1 with
        collectedData := { st1.collectedData with bookingFor := some "self" }
        currentStep := BookingState.collecting_gender }
      (updateState db botId userKey st2, ["MSG_ASK_GENDER"])

/-- `BookingService.handleBookingForInput`: the
`booking_require_gender` flag is read from the settings row *at this
turn*. -/
def handleBookingForInput (env : Env) (db : Db) (botId businessId userKey : String)
    (message : String) (st : ConversationState) : Db × List String :=
  match validateBookingFor message with
  | none => (db, ["MSG_INVALID_BOOKING_FOR"])
  | some v =>
    let st1 := { st with collectedData := { st.collectedData with bookingFor := some v } }
    if requireGender db.settings then
      let st2 := { st1 with currentStep := BookingState.collecting_gender }
      (updateState db botId userKey st2, ["MSG_ASK_GENDER"])
    else
      let st2 := { st1 with currentStep := BookingState.showing_services }
      showServices env (updateState db botId userKey st2) botId businessId userKey st2

/-- `BookingService.handleGenderInput`. -/
def handleGenderInput (env : Env) (db : Db) (botId businessId userKey : String)
    (message : String) (st : ConversationState) : Db × List String :=
  let input := strTrim message
  let input := if input = "1" then "male"
    else if input = "2" then "female"
    else if input = "3" then "other" else input
  match validateGender input with
  | none => (db, ["MSG_INVALID_GENDER"])
  | some g =>
    let st1 := { st with
      collectedData := { st.collectedData with gender := some g }
      currentStep := BookingState.showing_services }
    showServices env (updateState db botId userKey st1) botId businessId userKey st1

/-- Service lookup of `handleServiceInput`: a 1-based index or an
exact/substring case-insensitive name match (`input` already
lowercased by the caller). -/
def findService (services : List Service) (input : String) : Option Service :=
  if allDigits input then
    let n := strToNat input
    if 1 ≤ n && n ≤ services.length then services.get? (n - 1) else none
  else
    services.find? (fun s => strLower s.name = input || strIncludes (strLower s.name) input)

/-- `BookingService.handleServiceInput`. -/
def handleServiceInput (env : Env) (db : Db) (botId businessId userKey : String)
    (message : String) (st : ConversationState) : Db × List String :=
  match validateServiceSelection message with
  | none => (db, ["MSG_INVALID_SERVICE"])
  | some v =>
    let services := env.services businessId
    if services.isEmpty then (db, ["MSG_NO_SERVICES_SHORT"])
    else
      match findService services (strLower v) with
      | none => (db, ["MSG_SERVICE_NOT_FOUND"])
      | some s =>
        let st1 := { st with
          collectedData := { st.collectedData with
            serviceId := some s.id
            serviceName := some s.name
            servicePrice := s.price
            serviceDuration := s.duration }
          currentStep := BookingState.showing_dates }
        showAvailableDates (updateState db botId userKey st1) botId userKey st1

/-- `BookingService.handleDateInput`. -/
def handleDateInput (env : Env) (db : Db) (botId businessId userKey : String)
    (message : String) (st : ConversationState) : Db × List String :=
  let input := strLower (strTrim message)
  let selectedDate : Option String :=
    if allDigits input then
      let n := strToNat input
      if 1 ≤ n && n ≤ 7 then some (env.todayPlus (n - 1)) else none
    else if input = "today" then some (env.todayPlus 0)
    else if input = "tomorrow" then some (env.todayPlus 1)
    else if isIsoDateFormat input then some input
    else none
  match selectedDate with
  | none => (db, ["MSG_INVALID_DATE"])
  | some d =>
    if env.isPastDate d then (db, ["MSG_PAST_DATE"])
    else
      let st1 := { st with
        collectedData := { st.collectedData with bookingDate := some d }
        currentStep := BookingState.showing_time_slots }
      showAvailableTimeSlots env (updateState db botId userKey st1) botId businessId userKey st1

/-- `BookingService.handleTimeInput`: availability is re-fetched on
this turn and only a 1-based index into the available list is
accepted. -/
def handleTimeInput (env : Env) (db : Db) (botId businessId userKey : String)
    (message : String) (st : ConversationState) : Db × List String :=
  let input := strTrim message
  let date := st.collectedData.bookingDate.getD ""
  let slots := get_available_time_slots env.timeConfig db.bookings businessId date
    (env.dayOfWeek date)
  let availableSlots := slots.filter (fun s => s.is_available)
  let selectedTime : Option Nat :=
    if allDigits input then
      let n := strToNat input
      if 1 ≤ n && n ≤ availableSlots.length then
        (availableSlots.get? (n - 1)).map (fun s => s.slot_time)
      else none
    else none
  match selectedTime with
  | none => (db, ["MSG_INVALID_TIME"])
  | some t =>
    let st1 := { st with
      collectedData := { st.collectedData with bookingTime := some t }
      currentStep := BookingState.confirming }
    (updateState db botId userKey st1, ["MSG_CONFIRM_SUMMARY"])

/-- `BookingService.handleConfirmation`: on an affirmative answer the
collected draft is handed to `create_booking_safe`; on success the
conversation is completed, on a slot-taken failure the step is
rewound to `SHOWING_TIME_SLOTS` and availability re-displayed. -/
def handleConfirmation (env : Env) (db : Db) (botId businessId userKey : String)
    (message : String) (st : ConversationState) : Db × List String :=
  match validateConfirmation message with
  | none => (db, ["MSG_INVALID_CONFIRMATION"])
  | some false => handleCancel db botId userKey
  | some true =>
    let d := st.collectedData
    let args : CreateBookingArgs :=
      { business_id := businessId, bot_id := botId,
        customer_name := d.customerName.getD "",
        customer_phone := userKey,
        booking_for := jsOr d.bookingFor "self",
        gender := jsOr d.gender "not specified",
        service_id := d.serviceId,
        service_name := d.serviceName.getD "",
        service_price := jsOrNat d.servicePrice 0,
        booking_date := d.bookingDate.getD "",
        booking_time := d.bookingTime.getD 0,
        duration := jsOrNat d.serviceDuration 30,
        notes := none }
    let (result, bookings1) := create_booking_safe db.bookings [] args
    let db1 := { db with bookings := bookings1 }
    if result.success then
      (completeConversation db1 botId userKey, ["MSG_BOOKING_CONFIRMED"])
    else
      let st1 := { st with currentStep := BookingState.showing_time_slots }
      let db2 := updateState db1 botId userKey st1
      let (db3, sent3) := showAvailableTimeSlots env db2 botId businessId userKey st1
      (db3, "MSG_SLOT_TAKEN" :: sent3)

/-- `BookingService.handleBookingMessage`: the per-turn entry point.
Every turn loads or creates the session, extends its expiry, applies
the global cancel shortcut and then dispatches on the current step. -/
def handleBookingMessage (env : Env) (db : Db) (botId businessId userKey : String)
    (message : String) (now : Nat) : Db × List String :=
  let (st, db1) := getOrCreateState db botId businessId userKey now
  let db2 := extendExpiry db1 botId userKey now
  if strTrim (strLower message) = "cancel" ∧ st.currentStep ≠ BookingState.confirming then
    handleCancel db2 botId userKey
  else
    match st.currentStep with
    | BookingState.idle => startBooking db2 botId userKey st
    | BookingState.collecting_name => handleNameInput db2 botId userKey message st
    | BookingState.collecting_booking_for =>
      handleBookingForInput env db2 botId businessId userKey message st
    | BookingState.collecting_gender =>
      handleGenderInput env db2 botId businessId userKey message st
    | BookingState.collecting_service =>
      handleServiceInput env db2 botId businessId userKey message st
    | BookingState.collecting_date =>
      handleDateInput env db2 botId businessId userKey message st
    | BookingState.collecting_time =>
      handleTimeInput env db2 botId businessId userKey message st
    | BookingState.confirming =>
      handleConfirmation env db2 botId businessId userKey message st
    | _ => startBooking db2 botId userKey st

/-! ## Workflow engine (`workflow-engine.ts`) -/

/-- `step.id || 'step1'`. -/
def stepId (s : WorkflowStep) : String := s.id.getD "step1"

def wfMatches (botId userKey : String) (c : WorkflowConvoRow) : Bool :=
  c.botId = botId && c.userKey = userKey && !c.isCompleted

def activeWorkflowConvo (db : Db) (botId userKey : String) : Option WorkflowConvoRow :=
  db.workflowConvos.find? (wfMatches botId userKey)

/-- An UPDATE with `.eq('id', convoId)`. -/
def mapWorkflowById (db : Db) (convoId : Nat)
    (f : WorkflowConvoRow → WorkflowConvoRow) : Db :=
  { db with workflowConvos := (db.workflowConvos.map
      (fun c => if c.id = convoId then f c else c)) }

/-- JS `a || b` where both operands are optional strings and the empty
string is falsy. -/
def jsOrOpt (a b : Option String) : Option String :=
  match a with
  | some s => if s = "" then b else some s
  | none => b

/-- The canonical decimal form of a parsed JS number: an integer part
plus fractional digits with trailing zeros stripped (`""` for an
integer). -/
structure JsNum where
  intPart : Nat
  fracDigits : String
  deriving DecidableEq, Repr

def stripTrailingZeros (s : String) : String :=
  String.mk (((s.toList.reverse).dropWhile (fun c => c = '0')).reverse)

/-- Partial model of JS `Number(t)` covering the forms a chat reply
can realistically take: the empty string (`0` in JS), unsigned decimal
integers, and unsigned decimal fractions.  Signs, exponents, hex and
infinities are not modelled and map to `none` (NaN). -/
def jsNumber (t : String) : Option JsNum :=
  if t = "" then some { intPart := 0, fracDigits := "" }
  else if allDigits t then some { intPart := strToNat t, fracDigits := "" }
  else
    match splitOnDot t.toList with
    | [ip, fp] =>
      if allDigits (String.mk ip) && allDigits (String.mk fp) then
        some { intPart := strToNat (String.mk ip),
               fracDigits := stripTrailingZeros (String.mk fp) }
      else none
    | _ => none

/-- `num >= 1`. -/
def JsNum.geOne (v : JsNum) : Bool := 1 ≤ v.intPart

/-- `num <= options.length`. -/
def JsNum.leLen (v : JsNum) (len : Nat) : Bool :=
  v.intPart < len || (v.intPart = len && v.fracDigits = "")

/-- `num - 1` for `num >= 1`. -/
def JsNum.minusOne (v : JsNum) : JsNum := { v with intPart := v.intPart - 1 }

/-- JS `String(num)`. -/
def JsNum.render (v : JsNum) : String :=
  if v.fracDigits = "" then toString v.intPart
  else toString v.intPart ++ "." ++ v.fracDigits

/-- `WorkflowEngine.parseOption`: an in-range number selects that
(possibly fractional) zero-based position, otherwise an exact
case-insensitive label match selects its index, otherwise the input
is unmatched. -/
def parseOption (message : String) (options : List OptionItem) : Option JsNum :=
  let trimmed := strLower (strTrim message)
  let byNumber : Option JsNum :=
    match jsNumber trimmed with
    | some v => if v.geOne && v.leLen options.length then some v.minusOne else none
    | none => none
  match byNumber with
  | some v => some v
  | none =>
    (options.findIdx? (fun o => strLower o.label = trimmed)).map
      (fun i => { intPart := i, fracDigits := "" })

/-- JS `options[choice]?.value ?? options[choice]?.label ??
String(choice)`: a fractional index reads `undefined` out of the
array, so the rendered number itself is stored. -/
def optionStoredValue (options : List OptionItem) (choice : JsNum) : String :=
  match (if choice.fracDigits = "" then options.get? choice.intPart else none) with
  | some o => o.value.getD o.label
  | none => choice.render

/-- JS object assignment `state[key] = v`. -/
def stateInsert (state : List (String × String)) (key v : String) :
    List (String × String) :=
  if state.any (fun p => p.1 = key) then
    state.map (fun p => if p.1 = key then (key, v) else p)
  else state ++ [(key, v)]

/-- The sends of a `share_media` step: the prompt first, then one send
per media item (the document/rich dispatch only affects the payload
shape, which the model elides). -/
def mediaTrace (env : Env) (prompt : String) : List String :=
  prompt :: env.mediaSends

/-- `WorkflowEngine.continueConversation`.  `businessId` comes from
the adapter context.  The `start_booking` step completes the workflow
conversation and only then hands the same message to the booking
engine. -/
def continueConversation (env : Env) (db : Db) (convo : WorkflowConvoRow)
    (businessId : String) (message : String) (now : Nat) : Bool × Db × List String :=
  match db.workflows.find? (fun w => w.id = convo.workflowId) with
  | none => (false, db, [])
  | some workflow =>
    let steps := workflow.steps
    let idx := steps.findIdx? (fun s => stepId s = convo.currentStepId)
    let posNext : Option WorkflowStep :=
      match idx with
      | some i => steps.get? (i + 1)
      | none => steps.get? 0
    let step? : Option WorkflowStep :=
      match idx with
      | some i => steps.get? i
      | none => steps.head?
    match step? with
    | none => (false, db, [])
    | some step =>
      if step.type = StepType.start_booking then
        let db1 := mapWorkflowById db convo.id (fun c => { c with isCompleted := true })
        let (db2, sent) := handleBookingMessage env db1 convo.botId businessId
          convo.userKey message now
        (true, db2, sent)
      else
        let state1 :=
          if step.type = StepType.collect_field then
            let fieldIdxTag := match idx with
              | some i => toString (i + 1)
              | none => "0"
            let key := jsOr step.collect_field_key
              (jsOr step.id ("field_" ++ fieldIdxTag))
            stateInsert convo.state key message
          else if step.type = StepType.show_options then
            match parseOption message step.options with
            | some choice =>
              let choiceIdxTag := match idx with
                | some i => toString (i + 1)
                | none => "0"
              let key := jsOr step.options_field_key
                (jsOr step.id ("choice_" ++ choiceIdxTag))
              stateInsert convo.state key (optionStoredValue step.options choice)
            | none => convo.state
          else convo.state
        let sentMid :=
          if step.type = StepType.ai_response then [env.aiReply message]
          else if step.type = StepType.share_media then
            mediaTrace env (jsOr step.prompt_message "Here are our items:")
          else []
        let nextId : Option String := jsOrOpt step.next (posNext.bind (fun s => s.id))
        match nextId with
        | none =>
          let db1 := mapWorkflowById db convo.id
            (fun c => { c with isCompleted := true, state := state1 })
          let db2 := if workflow.saveToDatabase then
            { db1 with inquiries := db1.inquiries + 1 } else db1
          (true, db2, sentMid ++ ["Thank you! Your information has been recorded."])
        | some nid =>
          let db1 := mapWorkflowById db convo.id
            (fun c => { c with currentStepId := nid, state := state1 })
          let next? : Option WorkflowStep :=
            match steps.find? (fun s => stepId s = nid) with
            | some s => some s
            | none => posNext
          match next? with
          | none => (true, db1, sentMid)
          | some nx =>
            if nx.type = StepType.start_booking then
              let db2 := mapWorkflowById db1 convo.id
                (fun c => { c with isCompleted := true, state := state1 })
              let (db3, sent3) := handleBookingMessage env db2 convo.botId businessId
                convo.userKey message now
              (true, db3, sentMid ++ sent3)
            else
              (true, db1, sentMid ++ [jsOr nx.prompt_message "Please continue..."])

/-- `WorkflowEngine.tryHandle`: continue an active conversation, else
match a published active workflow by trigger keyword and start it. -/
def tryHandle (env : Env) (db : Db) (botId businessId userKey channel : String)
    (message : String) (now : Nat) : Bool × Db × List String :=
  if !(workflowEnabled db.settings) then (false, db, [])
  else
    match activeWorkflowConvo db botId userKey with
    | some convo => continueConversation env db convo businessId message now
    | none =>
      let published := db.workflows.filter
        (fun w => w.botId = botId && w.isActive && w.published)
      if published.isEmpty then (false, db, [])
      else
        let matched := published.find? (fun wf =>
          !wf.triggerKeywords.isEmpty &&
            wf.triggerKeywords.any (fun k => strIncludes (strLower message) (strLower k)))
        match matched with
        | none => (false, db, [])
        | some wf =>
          match wf.steps.head? with
          | none => (false, db, [])
          | some firstStep =>
            let newConvo : WorkflowConvoRow :=
              { id := db.nextWorkflowConvoId, botId := botId, userKey := userKey,
                workflowId := wf.id, currentStepId := stepId firstStep,
                state := [], isCompleted := false, channel := channel }
            let db1 := { db with
              workflowConvos := db.workflowConvos ++ [newConvo]
              nextWorkflowConvoId := db.nextWorkflowConvoId + 1 }
            if firstStep.type = StepType.start_booking then
              let db2 := { db1 with workflowConvos := (db1.workflowConvos.map
                (fun c => if c.botId = botId && c.userKey = userKey &&
                    c.workflowId = wf.id then { c with isCompleted := true } else c)) }
              let (db3, sent3) := handleBookingMessage env db2 botId businessId
                userKey message now
              (true, db3, sent3)
            else if firstStep.type = StepType.share_media then
              let sentM := mediaTrace env (jsOr firstStep.prompt_message "How can I help you?")
              match jsOrOpt firstStep.next none with
              | none => (true, db1, sentM)
              | some nid =>
                let db2 := { db1 with workflowConvos := (db1.workflowConvos.map
                  (fun c => if wfMatches botId userKey c then
                      { c with currentStepId := nid } else c)) }
                match wf.steps.find? (fun s => stepId s = nid) with
                | none => (true, db2, sentM)
                | some nx => (true, db2, sentM ++ [jsOr nx.prompt_message "Please continue..."])
            else
              (true, db1, [jsOr firstStep.prompt_message "How can I help you?"])

/-! ## Dispatch routers -/

/-- The WhatsApp dispatch of `BotManager.handleIncomingMessage`: with
booking enabled, an active booking conversation or a booking keyword
match is handled *first*; the workflow engine only sees the message
afterwards, and an unhandled message falls through to the AI reply. -/
def whatsappDispatch (env : Env) (db : Db) (botId businessId userKey : String)
    (message : String) (now : Nat) : Db × List String :=
  if isBookingEnabled db && hasActiveConversation db botId userKey then
    handleBookingMessage env db botId businessId userKey message now
  else if isBookingEnabled db && isBookingTrigger message (getBookingKeywords db) then
    handleBookingMessage env db botId businessId userKey message now
  else
    let (handled, db1, sent1) := tryHandle env db botId businessId userKey "whatsapp"
      message now
    if handled then (db1, sent1) else (db1, sent1 ++ [env.aiReply message])

/-- The web dispatch of `handleWebMessage`: the workflow engine runs
*first* (even during an active booking conversation); only an
unhandled message reaches the booking checks, then the AI reply. -/
def webDispatch (env : Env) (db : Db) (botId businessId sessionId : String)
    (message : String) (now : Nat) : Db × List String :=
  let (handled, db1, sent1) := tryHandle env db botId businessId sessionId "web"
    message now
  if handled then (db1, sent1)
  else if isBookingEnabled db1 && hasActiveConversation db1 botId sessionId then
    handleBookingMessage env db1 botId businessId sessionId message now
  else if isBookingEnabled db1 && isBookingTrigger message (getBookingKeywords db1) then
    handleBookingMessage env db1 botId businessId sessionId message now
  else (db1, sent1 ++ [env.aiReply message])

/-- A sequence of inbound web messages from one user, each a separate
turn. -/
def runWebMessages (env : Env) (botId businessId sessionId : String) :
    Db → List (String × Nat) → Db
  | db, [] => db
  | db, (m, t) :: rest =>
    runWebMessages env botId businessId sessionId
      (webDispatch env db botId businessId sessionId m t).1 rest

/-! ## Infrastructure lemmas about the store operations -/

theorem mapActiveBk_bookingConvos (db : Db) (b u : String)
    (f : BookingConvoRow → BookingConvoRow) :
    (mapActiveBk db b u f).bookingConvos =
      db.bookingConvos.map (fun c => if bkMatches b u c then f c else c) := rfl

theorem mapActiveBk_workflowConvos (db : Db) (b u : String)
    (f : BookingConvoRow → BookingConvoRow) :
    (mapActiveBk db b u f).workflowConvos = db.workflowConvos := rfl

theorem mapActiveBk_stepWrites (db : Db) (b u : String)
    (f : BookingConvoRow → BookingConvoRow) :
    (mapActiveBk db b u f).stepWrites = db.stepWrites := rfl

theorem updateState_bookingConvos (db : Db) (b u : String) (st : ConversationState) :
    (updateState db b u st).bookingConvos =
      db.bookingConvos.map (fun c => if bkMatches b u c then
        { c with collectedData := st.collectedData, currentStep := st.currentStep } else c) := rfl

theorem updateState_workflowConvos (db : Db) (b u : String) (st : ConversationState) :
    (updateState db b u st).workflowConvos = db.workflowConvos := rfl

theorem updateState_stepWrites (db : Db) (b u : String) (st : ConversationState) :
    (updateState db b u st).stepWrites = db.stepWrites ++ [st.currentStep] := rfl

/-- Rows matching a pair after an update that keeps identity fields
and the completion flag match iff they matched before, and vice
versa. -/
theorem bkMatches_after_keep (b' u' b u : String) (c : BookingConvoRow)
    (f : BookingConvoRow → BookingConvoRow)
    (hk : ∀ x, (f x).botId = x.botId ∧ (f x).customerPhone = x.customerPhone ∧
      (f x).isCompleted = x.isCompleted) :
    bkMatches b' u' (if bkMatches b u c then f c else c) = bkMatches b' u' c := by
  by_cases h : bkMatches b u c = true
  · simp only [h, if_true]
    unfold bkMatches
    rw [(hk c).1, (hk c).2.1, (hk c).2.2]
  · simp [h]

/-- Rows matching a pair after an update that completes rows can only
come from rows that matched before. -/
theorem bkMatches_after_complete (b' u' b u : String) (c : BookingConvoRow)
    (f : BookingConvoRow → BookingConvoRow)
    (hk : ∀ x, (f x).isCompleted = true) :
    bkMatches b' u' (if bkMatches b u c then f c else c) = true → bkMatches b' u' c = true := by
  by_cases h : bkMatches b u c = true
  · intro hc
    exfalso
    simp only [h, if_true] at hc
    unfold bkMatches at hc
    rw [hk c] at hc
    simp at hc
  · simp [h]

theorem countP_mapActiveBk_keep (db : Db) (b u b' u' : String)
    (f : BookingConvoRow → BookingConvoRow)
    (hk : ∀ x, (f x).botId = x.botId ∧ (f x).customerPhone = x.customerPhone ∧
      (f x).isCompleted = x.isCompleted) :
    ((mapActiveBk db b u f).bookingConvos.countP (bkMatches b' u')) =
      db.bookingConvos.countP (bkMatches b' u') := by
  rw [mapActiveBk_bookingConvos, List.countP_map]
  apply List.countP_congr
  intro c _
  simp only [Function.comp]
  rw [bkMatches_after_keep b' u' b u c f hk]

theorem countP_mapActiveBk_complete (db : Db) (b u b' u' : String)
    (f : BookingConvoRow → BookingConvoRow)
    (hk : ∀ x, (f x).isCompleted = true) :
    ((mapActiveBk db b u f).bookingConvos.countP (bkMatches b' u')) ≤
      db.bookingConvos.countP (bkMatches b' u') := by
  rw [mapActiveBk_bookingConvos, List.countP_map]
  apply List.countP_mono_left
  intro c _
  simp only [Function.comp]
  exact bkMatches_after_complete b' u' b u c f hk

/-- Invariant package preserved by every operation a booking turn for
`(b, u)` performs after its expiry extension: the workflow table is
untouched, per-pair active-conversation counts do not grow, and the
"every active row of the pair has expiry `t`" property survives. -/
def preservesTurnInv (b u : String) (db db' : Db) : Prop :=
  db'.workflowConvos = db.workflowConvos ∧
  (∀ b' u', db'.bookingConvos.countP (bkMatches b' u') ≤
    db.bookingConvos.countP (bkMatches b' u')) ∧
  (∀ t, (∀ c ∈ db.bookingConvos, bkMatches b u c = true → c.expiresAt = t) →
    (∀ c ∈ db'.bookingConvos, bkMatches b u c = true → c.expiresAt = t))

theorem preservesTurnInv_refl (b u : String) (db : Db) : preservesTurnInv b u db db :=
  ⟨rfl, fun _ _ => le_refl _, fun _ h => h⟩

theorem preservesTurnInv_trans {b u : String} {db1 db2 db3 : Db}
    (h12 : preservesTurnInv b u db1 db2) (h23 : preservesTurnInv b u db2 db3) :
    preservesTurnInv b u db1 db3 :=
  ⟨h23.1.trans h12.1,
   fun b' u' => (h23.2.1 b' u').trans (h12.2.1 b' u'),
   fun t h => h23.2.2 t (h12.2.2 t h)⟩

/-- A keep-style `mapActiveBk` (identity fields, completion flag and
expiry untouched) preserves the turn invariant. -/
theorem preservesTurnInv_mapActiveBk_keep (b u : String) (db : Db)
    (f : BookingConvoRow → BookingConvoRow)
    (hk : ∀ x, (f x).botId = x.botId ∧ (f x).customerPhone = x.customerPhone ∧
      (f x).isCompleted = x.isCompleted)
    (he : ∀ x, (f x).expiresAt = x.expiresAt) :
    preservesTurnInv b u db (mapActiveBk db b u f) := by
  refine ⟨rfl, fun b' u' => le_of_eq (countP_mapActiveBk_keep db b u b' u' f hk), ?_⟩
  intro t h c hc hm
  rw [mapActiveBk_bookingConvos] at hc
  obtain ⟨c0, hc0, rfl⟩ := List.mem_map.mp hc
  rw [bkMatches_after_keep b u b u c0 f hk] at hm
  by_cases h0 : bkMatches b u c0 = true
  · simp only [h0, if_true]
    rw [he c0]
    exact h c0 hc0 h0
  · exact absurd hm h0

/-- A completing `mapActiveBk` preserves the turn invariant. -/
theorem preservesTurnInv_mapActiveBk_complete (b u : String) (db : Db)
    (f : BookingConvoRow → BookingConvoRow)
    (hk : ∀ x, (f x).isCompleted = true) :
    preservesTurnInv b u db (mapActiveBk db b u f) := by
  refine ⟨rfl, fun b' u' => countP_mapActiveBk_complete db b u b' u' f hk, ?_⟩
  intro t h c hc hm
  rw [mapActiveBk_bookingConvos] at hc
  obtain ⟨c0, hc0, rfl⟩ := List.mem_map.mp hc
  have hm0 := bkMatches_after_complete b u b u c0 f hk hm
  by_cases h0 : bkMatches b u c0 = true
  · exfalso
    simp only [h0, if_true] at hm
    unfold bkMatches at hm
    rw [hk c0] at hm
    simp at hm
  · exact absurd hm0 h0

theorem preservesTurnInv_updateState (b u : String) (db : Db) (st : ConversationState) :
    preservesTurnInv b u db (updateState db b u st) := by
  have h := preservesTurnInv_mapActiveBk_keep b u db
    (fun c => { c with collectedData := st.collectedData, currentStep := st.currentStep })
    (fun x => ⟨rfl, rfl, rfl⟩) (fun x => rfl)
  exact h

theorem preservesTurnInv_completeConversation (b u : String) (db : Db) :
    preservesTurnInv b u db (completeConversation db b u) :=
  preservesTurnInv_mapActiveBk_complete b u db _ (fun _ => rfl)

theorem preservesTurnInv_cancelConversation (b u : String) (db : Db) :
    preservesTurnInv b u db (cancelConversation db b u) :=
  preservesTurnInv_mapActiveBk_complete b u db _ (fun _ => rfl)

theorem preservesTurnInv_setBookings (b u : String) (db : Db) (x : List Booking) :
    preservesTurnInv b u db { db with bookings := x } :=
  ⟨rfl, fun _ _ => le_refl _, fun _ h => h⟩

theorem preservesTurnInv_startBooking (db : Db) (b u : String) (st : ConversationState) :
    preservesTurnInv b u db (startBooking db b u st).1 :=
  preservesTurnInv_updateState b u db _

theorem preservesTurnInv_handleCancel (db : Db) (b u : String) :
    preservesTurnInv b u db (handleCancel db b u).1 :=
  preservesTurnInv_cancelConversation b u db

theorem preservesTurnInv_showServices (env : Env) (db : Db) (b biz u : String)
    (st : ConversationState) :
    preservesTurnInv b u db (showServices env db b biz u st).1 := by
  unfold showServices
  dsimp only
  split
  · exact preservesTurnInv_cancelConversation b u db
  · exact preservesTurnInv_updateState b u db _

theorem preservesTurnInv_showAvailableDates (db : Db) (b u : String)
    (st : ConversationState) :
    preservesTurnInv b u db (showAvailableDates db b u st).1 :=
  preservesTurnInv_updateState b u db _

theorem preservesTurnInv_showAvailableTimeSlots (env : Env) (db : Db) (b biz u : String)
    (st : ConversationState) :
    preservesTurnInv b u db (showAvailableTimeSlots env db b biz u st).1 := by
  unfold showAvailableTimeSlots
  dsimp only
  split
  · exact preservesTurnInv_trans (preservesTurnInv_updateState b u db _)
      (preservesTurnInv_showAvailableDates _ b u _)
  · split
    · exact preservesTurnInv_trans (preservesTurnInv_updateState b u db _)
        (preservesTurnInv_showAvailableDates _ b u _)
    · exact preservesTurnInv_updateState b u db _

theorem preservesTurnInv_handleNameInput (db : Db) (b u : String) (msg : String)
    (st : ConversationState) :
    preservesTurnInv b u db (handleNameInput db b u msg st).1 := by
  unfold handleNameInput
  dsimp only
  split
  · exact preservesTurnInv_refl b u db
  · split
    · exact preservesTurnInv_updateState b u db _
    · exact preservesTurnInv_updateState b u db _

theorem preservesTurnInv_handleBookingForInput (env : Env) (db : Db) (b biz u : String)
    (msg : String) (st : ConversationState) :
    preservesTurnInv b u db (handleBookingForInput env db b biz u msg st).1 := by
  unfold handleBookingForInput
  dsimp only
  split
  · exact preservesTurnInv_refl b u db
  · split
    · exact preservesTurnInv_updateState b u db _
    · exact preservesTurnInv_trans (preservesTurnInv_updateState b u db _)
        (preservesTurnInv_showServices env _ b biz u _)

theorem preservesTurnInv_handleGenderInput (env : Env) (db : Db) (b biz u : String)
    (msg : String) (st : ConversationState) :
    preservesTurnInv b u db (handleGenderInput env db b biz u msg st).1 := by
  unfold handleGenderInput
  dsimp only
  split
  · exact preservesTurnInv_refl b u db
  · exact preservesTurnInv_trans (preservesTurnInv_updateState b u db _)
      (preservesTurnInv_showServices env _ b biz u _)

theorem preservesTurnInv_handleServiceInput (env : Env) (db : Db) (b biz u : String)
    (msg : String) (st : ConversationState) :
    preservesTurnInv b u db (handleServiceInput env db b biz u msg st).1 := by
  unfold handleServiceInput
  dsimp only
  split
  · exact preservesTurnInv_refl b u db
  · split
    · exact preservesTurnInv_refl b u db
    · split
      · exact preservesTurnInv_refl b u db
      · exact preservesTurnInv_trans (preservesTurnInv_updateState b u db _)
          (preservesTurnInv_showAvailableDates _ b u _)

theorem preservesTurnInv_handleDateInput (env : Env) (db : Db) (b biz u : String)
    (msg : String) (st : ConversationState) :
    preservesTurnInv b u db (handleDateInput env db b biz u msg st).1 := by
  unfold handleDateInput
  dsimp only
  split
  · exact preservesTurnInv_refl b u db
  · split
    · exact preservesTurnInv_refl b u db
    · exact preservesTurnInv_trans (preservesTurnInv_updateState b u db _)
        (preservesTurnInv_showAvailableTimeSlots env _ b biz u _)

theorem preservesTurnInv_handleTimeInput (env : Env) (db : Db) (b biz u : String)
    (msg : String) (st : ConversationState) :
    preservesTurnInv b u db (handleTimeInput env db b biz u msg st).1 := by
  unfold handleTimeInput
  dsimp only
  split
  · exact preservesTurnInv_refl b u db
  · exact preservesTurnInv_updateState b u db _

theorem preservesTurnInv_handleConfirmation (env : Env) (db : Db) (b biz u : String)
    (msg : String) (st : ConversationState) :
    preservesTurnInv b u db (handleConfirmation env db b biz u msg st).1 := by
  unfold handleConfirmation
  dsimp only
  split
  · exact preservesTurnInv_refl b u db
  · exact preservesTurnInv_handleCancel db b u
  · split
    · exact preservesTurnInv_trans (preservesTurnInv_setBookings b u db _)
        (preservesTurnInv_completeConversation b u _)
    · exact preservesTurnInv_trans (preservesTurnInv_setBookings b u db _)
        (preservesTurnInv_trans (preservesTurnInv_updateState b u _ _)
          (preservesTurnInv_showAvailableTimeSlots env _ b biz u _))

/-- After `extendExpiry`, every active row of the pair carries the
fresh expiry. -/
theorem activeExpiry_extendExpiry (db : Db) (b u : String) (now : Nat) :
    ∀ c ∈ (extendExpiry db b u now).bookingConvos, bkMatches b u c = true →
      c.expiresAt = now + expiryWindowMs := by
  intro c hc hm
  unfold extendExpiry at hc
  rw [mapActiveBk_bookingConvos] at hc
  obtain ⟨c0, _, rfl⟩ := List.mem_map.mp hc
  by_cases h0 : bkMatches b u c0 = true
  · simp only [h0, if_true]
  · rw [if_neg h0] at hm ⊢
    exact absurd hm h0

theorem getOrCreateState_workflowConvos (db : Db) (b biz u : String) (now : Nat) :
    ((getOrCreateState db b biz u now).2).workflowConvos = db.workflowConvos := by
  unfold getOrCreateState
  split <;> rfl

theorem extendExpiry_workflowConvos (db : Db) (b u : String) (now : Nat) :
    (extendExpiry db b u now).workflowConvos = db.workflowConvos := rfl

/-- At most one active booking conversation per `(bot, user)` pair. -/
def bkAtMostOne (db : Db) : Prop :=
  ∀ b u, db.bookingConvos.countP (bkMatches b u) ≤ 1

/-- At most one active workflow conversation per `(bot, user)` pair. -/
def wfAtMostOne (db : Db) : Prop :=
  ∀ b u, db.workflowConvos.countP (wfMatches b u) ≤ 1

theorem find?_none_countP_zero {α : Type} (p : α → Bool) (l : List α)
    (h : l.find? p = none) : l.countP p = 0 := by
  rw [List.countP_eq_zero]
  intro a ha
  exact List.find?_eq_none.mp h a ha

theorem getOrCreateState_bkAtMostOne (db : Db) (b biz u : String) (now : Nat)
    (h : bkAtMostOne db) : bkAtMostOne (getOrCreateState db b biz u now).2 := by
  unfold getOrCreateState
  cases hfind : activeBookingConvo db b u with
  | some c => simpa using h
  | none =>
    simp only
    intro b' u'
    rw [List.countP_append]
    by_cases hp : b = b' ∧ u = u'
    · obtain ⟨rfl, rfl⟩ := hp
      have h0 : db.bookingConvos.countP (bkMatches b u) = 0 :=
        find?_none_countP_zero _ _ hfind
      rw [h0]
      simp [bkMatches]
    · have hrow : ∀ row : BookingConvoRow, row.botId = b → row.customerPhone = u →
          bkMatches b' u' row = false := by
        intro row hb hu
        unfold bkMatches
        by_cases hbb : b = b'
        · subst hbb
          have hu' : ¬ u = u' := fun huu => hp ⟨rfl, huu⟩
          simp [hb, hu, hu']
        · simp [hb, hbb]
      rw [List.countP_cons, List.countP_nil, hrow]
      · simpa using h b' u'
      · rfl
      · rfl

theorem extendExpiry_countP (db : Db) (b u b' u' : String) (now : Nat) :
    ((extendExpiry db b u now).bookingConvos.countP (bkMatches b' u')) =
      db.bookingConvos.countP (bkMatches b' u') :=
  countP_mapActiveBk_keep db b u b' u' _ (fun _ => ⟨rfl, rfl, rfl⟩)

/-- Dispatch on the current step: every branch of
`handleBookingMessage` after the expiry extension satisfies the turn
invariant. -/
theorem preservesTurnInv_stepDispatch (env : Env) (db : Db) (b biz u msg : String)
    (st : ConversationState) :
    preservesTurnInv b u db
      (if strTrim (strLower msg) = "cancel" ∧ st.currentStep ≠ BookingState.confirming then
        handleCancel db b u
      else
        match st.currentStep with
        | BookingState.idle => startBooking db b u st
        | BookingState.collecting_name => handleNameInput db b u msg st
        | BookingState.collecting_booking_for =>
          handleBookingForInput env db b biz u msg st
        | BookingState.collecting_gender => handleGenderInput env db b biz u msg st
        | BookingState.collecting_service => handleServiceInput env db b biz u msg st
        | BookingState.collecting_date => handleDateInput env db b biz u msg st
        | BookingState.collecting_time => handleTimeInput env db b biz u msg st
        | BookingState.confirming => handleConfirmation env db b biz u msg st
        | _ => startBooking db b u st).1 := by
  split
  · exact preservesTurnInv_handleCancel db b u
  · split
    · exact preservesTurnInv_startBooking db b u st
    · exact preservesTurnInv_handleNameInput db b u msg st
    · exact preservesTurnInv_handleBookingForInput env db b biz u msg st
    · exact preservesTurnInv_handleGenderInput env db b biz u msg st
    · exact preservesTurnInv_handleServiceInput env db b biz u msg st
    · exact preservesTurnInv_handleDateInput env db b biz u msg st
    · exact preservesTurnInv_handleTimeInput env db b biz u msg st
    · exact preservesTurnInv_handleConfirmation env db b biz u msg st
    · exact preservesTurnInv_startBooking db b u st

/-- After any booking turn, every still-active conversation row of
the pair carries the expiry `now + 30 minutes`. -/
theorem handleBookingMessage_expiry (env : Env) (db : Db) (b biz u msg : String)
    (now : Nat) :
    ∀ c ∈ (handleBookingMessage env db b biz u msg now).1.bookingConvos,
      bkMatches b u c = true → c.expiresAt = now + expiryWindowMs := by
  unfold handleBookingMessage
  dsimp only
  exact (preservesTurnInv_stepDispatch env
      (extendExpiry (getOrCreateState db b biz u now).2 b u now) b biz u msg
      (getOrCreateState db b biz u now).1).2.2 (now + expiryWindowMs)
    (activeExpiry_extendExpiry (getOrCreateState db b biz u now).2 b u now)

/-- A booking turn never touches the workflow-conversations table. -/
theorem handleBookingMessage_wfFrame (env : Env) (db : Db) (b biz u msg : String)
    (now : Nat) :
    (handleBookingMessage env db b biz u msg now).1.workflowConvos = db.workflowConvos := by
  unfold handleBookingMessage
  dsimp only
  rw [(preservesTurnInv_stepDispatch env
      (extendExpiry (getOrCreateState db b biz u now).2 b u now) b biz u msg
      (getOrCreateState db b biz u now).1).1]
  rw [extendExpiry_workflowConvos, getOrCreateState_workflowConvos]

/-- A booking turn keeps at most one active booking conversation per
pair. -/
theorem handleBookingMessage_bkAtMostOne (env : Env) (db : Db) (b biz u msg : String)
    (now : Nat) (h : bkAtMostOne db) :
    bkAtMostOne (handleBookingMessage env db b biz u msg now).1 := by
  unfold handleBookingMessage
  dsimp only
  intro b' u'
  refine le_trans ((preservesTurnInv_stepDispatch env
      (extendExpiry (getOrCreateState db b biz u now).2 b u now) b biz u msg
      (getOrCreateState db b biz u now).1).2.1 b' u') ?_
  rw [extendExpiry_countP]
  exact getOrCreateState_bkAtMostOne db b biz u now h b' u'

/-! ## Workflow-side infrastructure -/

theorem countP_condMap_keep {α : Type} (p q : α → Bool) (f : α → α) (l : List α)
    (hk : ∀ x, q x = true → p (f x) = p x) :
    (l.map (fun c => if q c then f c else c)).countP p = l.countP p := by
  rw [List.countP_map]
  apply List.countP_congr
  intro c _
  simp only [Function.comp]
  by_cases h : q c = true
  · rw [if_pos h, hk c h]
  · rw [if_neg h]

theorem countP_condMap_complete {α : Type} (p q : α → Bool) (f : α → α) (l : List α)
    (hk : ∀ x, q x = true → p (f x) = false) :
    (l.map (fun c => if q c then f c else c)).countP p ≤ l.countP p := by
  rw [List.countP_map]
  apply List.countP_mono_left
  intro c _
  simp only [Function.comp]
  by_cases h : q c = true
  · rw [if_pos h, hk c h]
    intro hc
    exact absurd hc (by simp)
  · rw [if_neg h]
    exact fun hc => hc

theorem mapWorkflowById_workflowConvos (db : Db) (convoId : Nat)
    (f : WorkflowConvoRow → WorkflowConvoRow) :
    (mapWorkflowById db convoId f).workflowConvos =
      db.workflowConvos.map (fun c => if c.id = convoId then f c else c) := rfl

theorem mapWorkflowById_bookingConvos (db : Db) (convoId : Nat)
    (f : WorkflowConvoRow → WorkflowConvoRow) :
    (mapWorkflowById db convoId f).bookingConvos = db.bookingConvos := rfl

/-- Completing a workflow row cannot make it active for any pair. -/
theorem wfMatches_completed (b u : String) (c : WorkflowConvoRow)
    (h : c.isCompleted = true) : wfMatches b u c = false := by
  unfold wfMatches
  rw [h]
  simp

/-- The two invariants together with the per-turn framing needed for
the dispatch-level proofs. -/
def preservesSessionInv (db db' : Db) : Prop :=
  (∀ b' u', db'.workflowConvos.countP (wfMatches b' u') ≤
    db.workflowConvos.countP (wfMatches b' u') ∨
      db.workflowConvos.countP (wfMatches b' u') = 0 ∧
      db'.workflowConvos.countP (wfMatches b' u') ≤ 1) ∧
  (bkAtMostOne db → bkAtMostOne db')

theorem preservesSessionInv_wfAtMostOne {db db' : Db}
    (h : preservesSessionInv db db') (hw : wfAtMostOne db) : wfAtMostOne db' := by
  intro b u
  rcases h.1 b u with hle | ⟨_, hone⟩
  · exact le_trans hle (hw b u)
  · exact hone

theorem preservesSessionInv_refl (db : Db) : preservesSessionInv db db :=
  ⟨fun _ _ => Or.inl (le_refl _), fun h => h⟩

theorem preservesSessionInv_trans {db1 db2 db3 : Db}
    (h12 : preservesSessionInv db1 db2) (h23 : preservesSessionInv db2 db3) :
    preservesSessionInv db1 db3 := by
  refine ⟨?_, fun h => h23.2 (h12.2 h)⟩
  intro b u
  rcases h12.1 b u with h12le | ⟨h12z, h12one⟩
  · rcases h23.1 b u with h23le | ⟨h23z, h23one⟩
    · exact Or.inl (le_trans h23le h12le)
    · by_cases h1 : db1.workflowConvos.countP (wfMatches b u) = 0
      · exact Or.inr ⟨h1, h23one⟩
      · exact Or.inl (le_trans h23one (Nat.one_le_iff_ne_zero.mpr h1))
  · rcases h23.1 b u with h23le | ⟨_, h23one⟩
    · exact Or.inr ⟨h12z, le_trans h23le h12one⟩
    · exact Or.inr ⟨h12z, h23one⟩

theorem sessionInv_frame (db db' : Db)
    (hwf : db'.workflowConvos = db.workflowConvos)
    (hbk : db'.bookingConvos = db.bookingConvos) : preservesSessionInv db db' := by
  constructor
  · intro b' u'
    rw [hwf]
    exact Or.inl (le_refl _)
  · intro h b' u'
    rw [hbk]
    exact h b' u'

theorem sessionInv_condMap_keep (db db' : Db) (q : WorkflowConvoRow → Bool)
    (f : WorkflowConvoRow → WorkflowConvoRow)
    (hwf : db'.workflowConvos = db.workflowConvos.map (fun c => if q c then f c else c))
    (hbk : db'.bookingConvos = db.bookingConvos)
    (hk : ∀ x, (f x).botId = x.botId ∧ (f x).userKey = x.userKey ∧
      (f x).isCompleted = x.isCompleted) : preservesSessionInv db db' := by
  constructor
  · intro b' u'
    rw [hwf, countP_condMap_keep]
    · exact Or.inl (le_refl _)
    · intro x _
      unfold wfMatches
      rw [(hk x).1, (hk x).2.1, (hk x).2.2]
  · intro h b' u'
    rw [hbk]
    exact h b' u'

theorem sessionInv_condMap_complete (db db' : Db) (q : WorkflowConvoRow → Bool)
    (f : WorkflowConvoRow → WorkflowConvoRow)
    (hwf : db'.workflowConvos = db.workflowConvos.map (fun c => if q c then f c else c))
    (hbk : db'.bookingConvos = db.bookingConvos)
    (hc : ∀ x, (f x).isCompleted = true) : preservesSessionInv db db' := by
  constructor
  · intro b' u'
    rw [hwf]
    exact Or.inl (countP_condMap_complete _ q f _ (fun x _ => wfMatches_completed b' u' (f x) (hc x)))
  · intro h b' u'
    rw [hbk]
    exact h b' u'

theorem sessionInv_mapWorkflowById_complete (db : Db) (cid : Nat)
    (f : WorkflowConvoRow → WorkflowConvoRow) (hc : ∀ x, (f x).isCompleted = true) :
    preservesSessionInv db (mapWorkflowById db cid f) :=
  sessionInv_condMap_complete db _ (fun c => c.id = cid) f
    (by rw [mapWorkflowById_workflowConvos]; simp) rfl hc

theorem sessionInv_mapWorkflowById_keep (db : Db) (cid : Nat)
    (f : WorkflowConvoRow → WorkflowConvoRow)
    (hk : ∀ x, (f x).botId = x.botId ∧ (f x).userKey = x.userKey ∧
      (f x).isCompleted = x.isCompleted) :
    preservesSessionInv db (mapWorkflowById db cid f) :=
  sessionInv_condMap_keep db _ (fun c => c.id = cid) f
    (by rw [mapWorkflowById_workflowConvos]; simp) rfl hk

theorem sessionInv_handleBookingMessage (env : Env) (db : Db) (b biz u msg : String)
    (now : Nat) : preservesSessionInv db (handleBookingMessage env db b biz u msg now).1 := by
  constructor
  · intro b' u'
    rw [handleBookingMessage_wfFrame]
    exact Or.inl (le_refl _)
  · exact handleBookingMessage_bkAtMostOne env db b biz u msg now

theorem sessionInv_insert (db db' : Db) (row : WorkflowConvoRow) (b0 u0 : String)
    (hwf : db'.workflowConvos = db.workflowConvos ++ [row])
    (hbk : db'.bookingConvos = db.bookingConvos)
    (hb : row.botId = b0) (hu : row.userKey = u0)
    (hnone : activeWorkflowConvo db b0 u0 = none) : preservesSessionInv db db' := by
  constructor
  · intro b' u'
    rw [hwf, List.countP_append]
    by_cases hp : b0 = b' ∧ u0 = u'
    · obtain ⟨rfl, rfl⟩ := hp
      refine Or.inr ⟨find?_none_countP_zero _ _ hnone, ?_⟩
      rw [find?_none_countP_zero _ _ hnone]
      simp [List.countP_cons]
      split <;> simp
    · refine Or.inl ?_
      have hrow : wfMatches b' u' row = false := by
        unfold wfMatches
        by_cases hbb : b0 = b'
        · subst hbb
          have hu' : ¬ u0 = u' := fun huu => hp ⟨rfl, huu⟩
          simp [hb, hu, hu']
        · simp [hb, hbb]
      rw [List.countP_cons, List.countP_nil, hrow]
      simp
  · intro h b' u'
    rw [hbk]
    exact h b' u'


/-- Completing a workflow conversation and then running a booking turn
preserves the session invariants. -/
theorem sessionInv_completeThenBooking (env : Env) (db : Db) (cid : Nat)
    (f : WorkflowConvoRow → WorkflowConvoRow) (b biz u msg : String) (now : Nat)
    (hc : ∀ x, (f x).isCompleted = true) :
    preservesSessionInv db
      (handleBookingMessage env (mapWorkflowById db cid f) b biz u msg now).1 :=
  preservesSessionInv_trans (sessionInv_mapWorkflowById_complete db cid f hc)
    (sessionInv_handleBookingMessage env _ b biz u msg now)

/-- Completing a workflow conversation followed by an update that
leaves both conversation tables alone preserves the invariants. -/
theorem sessionInv_completeThenFrame (db db' : Db) (cid : Nat)
    (f : WorkflowConvoRow → WorkflowConvoRow)
    (hc : ∀ x, (f x).isCompleted = true)
    (hwf : db'.workflowConvos = (mapWorkflowById db cid f).workflowConvos)
    (hbk : db'.bookingConvos = (mapWorkflowById db cid f).bookingConvos) :
    preservesSessionInv db db' :=
  preservesSessionInv_trans (sessionInv_mapWorkflowById_complete db cid f hc)
    (sessionInv_frame _ db' hwf hbk)

/-- A step advance, a completion and a booking turn in sequence
preserve the invariants. -/
theorem sessionInv_keepCompleteBooking (env : Env) (db : Db) (cid cid' : Nat)
    (f g : WorkflowConvoRow → WorkflowConvoRow) (b biz u msg : String) (now : Nat)
    (hk : ∀ x, (f x).botId = x.botId ∧ (f x).userKey = x.userKey ∧
      (f x).isCompleted = x.isCompleted)
    (hc : ∀ x, (g x).isCompleted = true) :
    preservesSessionInv db
      (handleBookingMessage env (mapWorkflowById (mapWorkflowById db cid f) cid' g)
        b biz u msg now).1 :=
  preservesSessionInv_trans (sessionInv_mapWorkflowById_keep db cid f hk)
    (sessionInv_completeThenBooking env _ cid' g b biz u msg now hc)

set_option maxHeartbeats 1600000 in
theorem sessionInv_continueConversation (env : Env) (db : Db) (convo : WorkflowConvoRow)
    (biz msg : String) (now : Nat) :
    preservesSessionInv db (continueConversation env db convo biz msg now).2.1 := by
  unfold continueConversation
  dsimp only
  repeat' split
  all_goals try dsimp only
  all_goals first
    | exact preservesSessionInv_refl db
    | with_reducible exact sessionInv_mapWorkflowById_keep db _ _ (fun _ => ⟨rfl, rfl, rfl⟩)
    | with_reducible exact sessionInv_mapWorkflowById_complete db _ _ (fun _ => rfl)
    | with_reducible exact sessionInv_completeThenBooking env db _ _ _ _ _ _ _ (fun _ => rfl)
    | with_reducible exact sessionInv_completeThenFrame db _ _ _ (fun _ => rfl) rfl rfl
    | exact sessionInv_keepCompleteBooking env db _ _ _ _ _ _ _ _ _
        (fun _ => ⟨rfl, rfl, rfl⟩) (fun _ => rfl)

/-- Inserting a fresh conversation for a pair with no active one and
then updating rows in place (keeping identity and completion) keeps
the invariants. -/
theorem sessionInv_insertMapKeep (db db' : Db) (row : WorkflowConvoRow)
    (q : WorkflowConvoRow → Bool) (f : WorkflowConvoRow → WorkflowConvoRow)
    (b0 u0 : String)
    (hwf : db'.workflowConvos =
      (db.workflowConvos ++ [row]).map (fun c => if q c then f c else c))
    (hbk : db'.bookingConvos = db.bookingConvos)
    (hb : row.botId = b0) (hu : row.userKey = u0)
    (hk : ∀ x, (f x).botId = x.botId ∧ (f x).userKey = x.userKey ∧
      (f x).isCompleted = x.isCompleted)
    (hnone : activeWorkflowConvo db b0 u0 = none) : preservesSessionInv db db' :=
  preservesSessionInv_trans
    (sessionInv_insert db { db with workflowConvos := db.workflowConvos ++ [row] }
      row b0 u0 rfl rfl hb hu hnone)
    (sessionInv_condMap_keep _ db' q f hwf hbk hk)

/-- Inserting a fresh conversation and then completing rows keeps the
invariants. -/
theorem sessionInv_insertMapComplete (db db' : Db) (row : WorkflowConvoRow)
    (q : WorkflowConvoRow → Bool) (f : WorkflowConvoRow → WorkflowConvoRow)
    (b0 u0 : String)
    (hwf : db'.workflowConvos =
      (db.workflowConvos ++ [row]).map (fun c => if q c then f c else c))
    (hbk : db'.bookingConvos = db.bookingConvos)
    (hb : row.botId = b0) (hu : row.userKey = u0)
    (hc : ∀ x, (f x).isCompleted = true)
    (hnone : activeWorkflowConvo db b0 u0 = none) : preservesSessionInv db db' :=
  preservesSessionInv_trans
    (sessionInv_insert db { db with workflowConvos := db.workflowConvos ++ [row] }
      row b0 u0 rfl rfl hb hu hnone)
    (sessionInv_condMap_complete _ db' q f hwf hbk hc)

/-- Insert, complete, and hand over to a booking turn: the
`start_booking` first-step branch of `tryHandle`. -/
theorem sessionInv_insertMapCompleteBooking (env : Env) (db db2 : Db)
    (row : WorkflowConvoRow) (q : WorkflowConvoRow → Bool)
    (f : WorkflowConvoRow → WorkflowConvoRow) (b0 u0 b biz u msg : String) (now : Nat)
    (hwf : db2.workflowConvos =
      (db.workflowConvos ++ [row]).map (fun c => if q c then f c else c))
    (hbk : db2.bookingConvos = db.bookingConvos)
    (hb : row.botId = b0) (hu : row.userKey = u0)
    (hc : ∀ x, (f x).isCompleted = true)
    (hnone : activeWorkflowConvo db b0 u0 = none) :
    preservesSessionInv db (handleBookingMessage env db2 b biz u msg now).1 :=
  preservesSessionInv_trans
    (sessionInv_insertMapComplete db db2 row q f b0 u0 hwf hbk hb hu hc hnone)
    (sessionInv_handleBookingMessage env db2 b biz u msg now)

set_option maxHeartbeats 1600000 in
theorem sessionInv_tryHandle (env : Env) (db : Db)
    (botId businessId userKey channel msg : String) (now : Nat) :
    preservesSessionInv db (tryHandle env db botId businessId userKey channel msg now).2.1 := by
  unfold tryHandle
  dsimp only
  split
  · exact preservesSessionInv_refl db
  · split
    · exact sessionInv_continueConversation env db _ businessId msg now
    · rename_i hnone
      repeat' split
      all_goals try dsimp only
      all_goals first
        | exact preservesSessionInv_refl db
        | exact sessionInv_insert db _ _ botId userKey rfl rfl rfl rfl hnone
        | exact sessionInv_insertMapCompleteBooking env db _ _ _ _ botId userKey
            botId businessId userKey msg now rfl rfl rfl rfl (fun _ => rfl) hnone
        | exact sessionInv_insertMapKeep db _ _ _ _ botId userKey rfl rfl rfl rfl
            (fun _ => ⟨rfl, rfl, rfl⟩) hnone

theorem sessionInv_whatsappDispatch (env : Env) (db : Db) (b biz u msg : String)
    (now : Nat) :
    preservesSessionInv db (whatsappDispatch env db b biz u msg now).1 := by
  unfold whatsappDispatch
  dsimp only
  split
  · exact sessionInv_handleBookingMessage env db b biz u msg now
  · split
    · exact sessionInv_handleBookingMessage env db b biz u msg now
    · split
      · exact sessionInv_tryHandle env db b biz u "whatsapp" msg now
      · exact sessionInv_tryHandle env db b biz u "whatsapp" msg now

theorem sessionInv_webDispatch (env : Env) (db : Db) (b biz u msg : String)
    (now : Nat) :
    preservesSessionInv db (webDispatch env db b biz u msg now).1 := by
  unfold webDispatch
  dsimp only
  split
  · exact sessionInv_tryHandle env db b biz u "web" msg now
  · split
    · exact preservesSessionInv_trans (sessionInv_tryHandle env db b biz u "web" msg now)
        (sessionInv_handleBookingMessage env _ b biz u msg now)
    · split
      · exact preservesSessionInv_trans (sessionInv_tryHandle env db b biz u "web" msg now)
          (sessionInv_handleBookingMessage env _ b biz u msg now)
      · exact sessionInv_tryHandle env db b biz u "web" msg now

/-- In the `start_booking` branch, `continueConversation` first
completes the workflow conversation and only then runs the booking
turn on the already-updated store. -/
theorem continueConversation_start_booking_eq (env : Env) (db : Db)
    (convo : WorkflowConvoRow) (biz msg : String) (now : Nat)
    (wf : WorkflowRecord) (i : Nat) (step : WorkflowStep)
    (hwf : db.workflows.find? (fun w => w.id = convo.workflowId) = some wf)
    (hidx : wf.steps.findIdx? (fun s => stepId s = convo.currentStepId) = some i)
    (hstep : wf.steps.get? i = some step)
    (hty : step.type = StepType.start_booking) :
    continueConversation env db convo biz msg now =
      (true, handleBookingMessage env
        (mapWorkflowById db convo.id (fun c => { c with isCompleted := true }))
        convo.botId biz convo.userKey msg now) := by
  unfold continueConversation
  rw [hwf]
  dsimp only
  rw [hidx]
  dsimp only
  rw [hstep]
  dsimp only
  rw [if_pos hty]

/-- Rows of a completing by-id update that carry the id are
completed. -/
theorem mem_mapById_complete (db : Db) (cid : Nat) :
    ∀ c ∈ (mapWorkflowById db cid
      (fun x => { x with isCompleted := true })).workflowConvos,
      c.id = cid → c.isCompleted = true := by
  intro c hc hid
  rw [mapWorkflowById_workflowConvos] at hc
  obtain ⟨c0, _, rfl⟩ := List.mem_map.mp hc
  by_cases h : c0.id = cid
  · simp [h]
  · rw [if_neg (by simpa using h)] at hid ⊢
    exact absurd hid h

/-! ## Concrete fixtures -/

/-- A small environment: one service, Mondays 10:00 to 11:00 in
30-minute slots, a two-day window, fixed AI reply, no media. -/
def envFix : Env :=
  { services := fun _ =>
      [{ id := "s1", name := "Haircut", price := some 500, duration := some 30 }],
    timeConfig := fun bz d =>
      if bz = "b1" && d = 1 then
        some { start_time := 600, end_time := 660, slot_duration := 30 }
      else none,
    todayPlus := fun i => if i = 0 then "2025-10-20" else "2025-10-21",
    dayOfWeek := fun _ => 1,
    isPastDate := fun _ => false,
    aiReply := fun _ => "AI_REPLY",
    mediaSends := [] }

/-- A published workflow triggered by the keyword `menu`, one
`collect_field` step. -/
def wfMenu : WorkflowRecord :=
  { id := 7, botId := "bot1", isActive := true, published := true,
    triggerKeywords := ["menu"],
    steps := [{ id := some "s1", type := StepType.collect_field,
                prompt_message := some "Ask away" }],
    saveToDatabase := false }

/-- Store with booking enabled (default keywords) and the `menu`
workflow published; both conversation tables empty. -/
def dbFix : Db :=
  { settings := { booking_enabled := some true },
    bookingConvos := [], workflowConvos := [], workflows := [wfMenu],
    bookings := [], inquiries := 0, stepWrites := [], nextWorkflowConvoId := 0 }

/-! ## C2: the at-most-one-active-conversation invariant -/

/-- C2 counterexample: from an empty store, the web dispatch handles
`"book"` (starting a booking conversation) and then `"menu"` (the
workflow matcher runs *first* and starts a workflow conversation even
though the booking conversation is still active), leaving one active
booking row *and* one active workflow row for the same
`(botId, userKey)` pair. -/
theorem session_mutual_exclusion_counterexample :
    ((runWebMessages envFix "bot1" "b1" "u1" dbFix
        [("book", 1000), ("menu", 2000)]).bookingConvos.countP
      (bkMatches "bot1" "u1") = 1) ∧
    ((runWebMessages envFix "bot1" "b1" "u1" dbFix
        [("book", 1000), ("menu", 2000)]).workflowConvos.countP
      (wfMatches "bot1" "u1") = 1) := by
  constructor <;> rfl

/-- C2 (amended): the engines maintain at most one active *booking*
conversation and at most one active *workflow* conversation per
`(botId, userKey)` pair, but not the joint invariant: one of each can
be active simultaneously, because the web dispatch runs the workflow
matcher even while a booking conversation is active.  The
`start_booking` step does complete the workflow conversation before
any booking handling runs. -/
theorem session_invariants_amended :
    (∀ (env : Env) (db : Db) (b biz u msg : String) (now : Nat),
      (bkAtMostOne db → bkAtMostOne (webDispatch env db b biz u msg now).1) ∧
      (wfAtMostOne db → wfAtMostOne (webDispatch env db b biz u msg now).1) ∧
      (bkAtMostOne db → bkAtMostOne (whatsappDispatch env db b biz u msg now).1) ∧
      (wfAtMostOne db → wfAtMostOne (whatsappDispatch env db b biz u msg now).1)) ∧
    (∀ (env : Env) (db : Db) (b biz u msg : String) (now : Nat),
      (handleBookingMessage env db b biz u msg now).1.workflowConvos =
        db.workflowConvos) ∧
    (∀ (env : Env) (db : Db) (convo : WorkflowConvoRow) (biz msg : String) (now : Nat)
      (wf : WorkflowRecord) (i : Nat) (step : WorkflowStep),
      db.workflows.find? (fun w => w.id = convo.workflowId) = some wf →
      wf.steps.findIdx? (fun s => stepId s = convo.currentStepId) = some i →
      wf.steps.get? i = some step →
      step.type = StepType.start_booking →
      continueConversation env db convo biz msg now =
        (true, handleBookingMessage env
          (mapWorkflowById db convo.id (fun c => { c with isCompleted := true }))
          convo.botId biz convo.userKey msg now) ∧
      (∀ c ∈ (continueConversation env db convo biz msg now).2.1.workflowConvos,
        c.id = convo.id → c.isCompleted = true)) := by
  refine ⟨?_, ?_, ?_⟩
  · intro env db b biz u msg now
    exact ⟨(sessionInv_webDispatch env db b biz u msg now).2,
      preservesSessionInv_wfAtMostOne (sessionInv_webDispatch env db b biz u msg now),
      (sessionInv_whatsappDispatch env db b biz u msg now).2,
      preservesSessionInv_wfAtMostOne (sessionInv_whatsappDispatch env db b biz u msg now)⟩
  · intro env db b biz u msg now
    exact handleBookingMessage_wfFrame env db b biz u msg now
  · intro env db convo biz msg now wf i step hwf hidx hstep hty
    have heq := continueConversation_start_booking_eq env db convo biz msg now wf i step
      hwf hidx hstep hty
    refine ⟨heq, ?_⟩
    intro c hc hid
    rw [heq] at hc
    dsimp only at hc
    rw [handleBookingMessage_wfFrame] at hc
    exact mem_mapById_complete _ convo.id c hc hid

/-- Witness for `session_invariants_amended` at a concrete store. -/
theorem session_invariants_amended_witness :
    bkAtMostOne (webDispatch envFix dbFix "bot1" "b1" "u1" "book" 1000).1 :=
  (session_invariants_amended.1 envFix dbFix "bot1" "b1" "u1" "book" 1000).1
    (fun b u => by simp [dbFix])

/-! ## C3: dispatch priority -/

/-- C3 counterexample: `"book menu"` matches both the published
workflow trigger `menu` and the booking keyword `book`; with no
active session the WhatsApp router starts the *booking* conversation
and never starts the workflow (the claim requires the workflow to
win). -/
theorem dispatch_priority_counterexample :
    ((dbFix.workflows.filter
        (fun w => w.botId = "bot1" && w.isActive && w.published)).find?
      (fun w => !w.triggerKeywords.isEmpty &&
        w.triggerKeywords.any
          (fun k => strIncludes (strLower "book menu") (strLower k))) = some wfMenu) ∧
    isBookingTrigger "book menu" (getBookingKeywords dbFix) = true ∧
    hasActiveConversation dbFix "bot1" "u1" = false ∧
    (whatsappDispatch envFix dbFix "bot1" "b1" "u1" "book menu" 1000).1.workflowConvos
      = [] ∧
    ((whatsappDispatch envFix dbFix "bot1" "b1" "u1" "book menu"
        1000).1.bookingConvos.countP (bkMatches "bot1" "u1") = 1) := by
  refine ⟨rfl, rfl, rfl, rfl, rfl⟩

/-- C3 (amended): on the WhatsApp router the booking checks run
first — with booking enabled, an active booking conversation or a
booking keyword match is consumed by the booking engine and the
workflow matcher is never invoked (its table is untouched).  On the
web router the workflow engine runs first: a fresh trigger match
starts the workflow and leaves the booking table untouched — even
when a booking conversation is currently active, which is how the two
engines can end up active at once. -/
theorem dispatch_priority_amended :
    (∀ (env : Env) (db : Db) (b biz u msg : String) (now : Nat),
      isBookingEnabled db = true →
      hasActiveConversation db b u = false →
      isBookingTrigger msg (getBookingKeywords db) = true →
      whatsappDispatch env db b biz u msg now =
        handleBookingMessage env db b biz u msg now ∧
      (whatsappDispatch env db b biz u msg now).1.workflowConvos =
        db.workflowConvos) ∧
    (∀ (env : Env) (db : Db) (b biz u msg : String) (now : Nat),
      isBookingEnabled db = true →
      hasActiveConversation db b u = true →
      whatsappDispatch env db b biz u msg now =
        handleBookingMessage env db b biz u msg now ∧
      (whatsappDispatch env db b biz u msg now).1.workflowConvos =
        db.workflowConvos) ∧
    (∀ (env : Env) (db : Db) (b biz u msg : String) (now : Nat)
      (wf : WorkflowRecord) (fs : WorkflowStep),
      workflowEnabled db.settings = true →
      activeWorkflowConvo db b u = none →
      (db.workflows.filter
        (fun w => w.botId = b && w.isActive && w.published)).find?
        (fun w => !w.triggerKeywords.isEmpty &&
          w.triggerKeywords.any
            (fun k => strIncludes (strLower msg) (strLower k))) = some wf →
      wf.steps.head? = some fs →
      fs.type = StepType.collect_field →
      (webDispatch env db b biz u msg now).1.workflowConvos =
        db.workflowConvos ++
          [{ id := db.nextWorkflowConvoId, botId := b, userKey := u,
             workflowId := wf.id, currentStepId := stepId fs, state := [],
             isCompleted := false, channel := "web" }] ∧
      (webDispatch env db b biz u msg now).1.bookingConvos = db.bookingConvos) := by
  refine ⟨?_, ?_, ?_⟩
  · intro env db b biz u msg now h1 h2 h3
    have hd : whatsappDispatch env db b biz u msg now =
        handleBookingMessage env db b biz u msg now := by
      unfold whatsappDispatch
      rw [h1, h2, h3]
      simp
    exact ⟨hd, by rw [hd]; exact handleBookingMessage_wfFrame env db b biz u msg now⟩
  · intro env db b biz u msg now h1 h2
    have hd : whatsappDispatch env db b biz u msg now =
        handleBookingMessage env db b biz u msg now := by
      unfold whatsappDispatch
      rw [h1, h2]
      simp
    exact ⟨hd, by rw [hd]; exact handleBookingMessage_wfFrame env db b biz u msg now⟩
  · intro env db b biz u msg now wf fs hen hnone hfind hhead hty
    have hne : (db.workflows.filter
        (fun w => w.botId = b && w.isActive && w.published)).isEmpty = false := by
      cases he : (db.workflows.filter
          (fun w => w.botId = b && w.isActive && w.published)).isEmpty
      · rfl
      · exfalso
        rw [List.isEmpty_iff] at he
        rw [he] at hfind
        simp at hfind
    have hts : fs.type = StepType.start_booking → False := by
      rw [hty]; intro h; cases h
    have htm : fs.type = StepType.share_media → False := by
      rw [hty]; intro h; cases h
    have htry : tryHandle env db b biz u "web" msg now =
        (true,
         { db with
             workflowConvos := db.workflowConvos ++
               [{ id := db.nextWorkflowConvoId, botId := b, userKey := u,
                  workflowId := wf.id, currentStepId := stepId fs, state := [],
                  isCompleted := false, channel := "web" }]
             nextWorkflowConvoId := db.nextWorkflowConvoId + 1 },
         [jsOr fs.prompt_message "How can I help you?"]) := by
      unfold tryHandle
      rw [hen]
      try dsimp only
      rw [hnone]
      try dsimp only
      rw [hne]
      try dsimp only
      rw [hfind]
      try dsimp only
      rw [hhead]
      try dsimp only
      rw [if_neg hts, if_neg htm]
      rfl
    have hweb : webDispatch env db b biz u msg now =
        ({ db with
             workflowConvos := db.workflowConvos ++
               [{ id := db.nextWorkflowConvoId, botId := b, userKey := u,
                  workflowId := wf.id, currentStepId := stepId fs, state := [],
                  isCompleted := false, channel := "web" }]
             nextWorkflowConvoId := db.nextWorkflowConvoId + 1 },
         [jsOr fs.prompt_message "How can I help you?"]) := by
      unfold webDispatch
      rw [htry]
      rfl
    constructor
    · rw [hweb]
    · rw [hweb]

/-- The first (and only) step of `wfMenu`. -/
def wfMenuStep : WorkflowStep :=
  { id := some "s1", type := StepType.collect_field, prompt_message := some "Ask away" }

/-- The workflow conversation row created by the web dispatch of
`menu` against `dbFix`. -/
def wfMenuConvoRow : WorkflowConvoRow :=
  { id := 0, botId := "bot1", userKey := "u1", workflowId := 7,
    currentStepId := "s1", state := [], isCompleted := false, channel := "web" }

/-- Witness for `dispatch_priority_amended`: on the web router the
message `menu` starts the workflow and leaves the booking table
untouched. -/
theorem dispatch_priority_amended_witness :
    (webDispatch envFix dbFix "bot1" "b1" "u1" "menu" 1000).1.workflowConvos =
      dbFix.workflowConvos ++ [wfMenuConvoRow] ∧
    (webDispatch envFix dbFix "bot1" "b1" "u1" "menu" 1000).1.bookingConvos =
      dbFix.bookingConvos :=
  dispatch_priority_amended.2.2 envFix dbFix "bot1" "b1" "u1" "menu" 1000 wfMenu
    wfMenuStep rfl rfl rfl rfl rfl

/-! ## C5: rewind on slot-taken -/

/-- Identity and completion footprint of the booking-conversations
table. -/
def bkFlags (db : Db) : List (String × String × Bool) :=
  db.bookingConvos.map (fun c => (c.botId, c.customerPhone, c.isCompleted))

theorem bkFlags_updateState (db : Db) (b u : String) (st : ConversationState) :
    bkFlags (updateState db b u st) = bkFlags db := by
  unfold bkFlags
  rw [updateState_bookingConvos, List.map_map]
  apply List.map_congr_left
  intro c _
  by_cases h : bkMatches b u c = true <;> simp [Function.comp, h]

theorem mem_updateState_data (db : Db) (b u : String) (st : ConversationState) :
    ∀ c ∈ (updateState db b u st).bookingConvos, bkMatches b u c = true →
      c.collectedData = st.collectedData ∧ c.currentStep = st.currentStep := by
  intro c hc hm
  rw [updateState_bookingConvos] at hc
  obtain ⟨c0, _, rfl⟩ := List.mem_map.mp hc
  by_cases h0 : bkMatches b u c0 = true
  · rw [if_pos h0]
    exact ⟨rfl, rfl⟩
  · rw [if_neg h0] at hm
    exact absurd hm h0

theorem showAvailableTimeSlots_stepWrites (env : Env) (db : Db)
    (b biz u : String) (st : ConversationState) :
    ∃ r, (showAvailableTimeSlots env db b biz u st).1.stepWrites =
      db.stepWrites ++ r := by
  unfold showAvailableTimeSlots
  dsimp only
  split
  · refine ⟨[BookingState.showing_dates, BookingState.collecting_date], ?_⟩
    unfold showAvailableDates
    dsimp only
    rw [updateState_stepWrites, updateState_stepWrites, List.append_assoc]
    rfl
  · split
    · refine ⟨[BookingState.showing_dates, BookingState.collecting_date], ?_⟩
      unfold showAvailableDates
      dsimp only
      rw [updateState_stepWrites, updateState_stepWrites, List.append_assoc]
      rfl
    · exact ⟨[BookingState.collecting_time], rfl⟩

theorem bkFlags_showAvailableTimeSlots (env : Env) (db : Db)
    (b biz u : String) (st : ConversationState) :
    bkFlags (showAvailableTimeSlots env db b biz u st).1 = bkFlags db := by
  unfold showAvailableTimeSlots
  unfold showAvailableDates
  dsimp only
  split
  · rw [bkFlags_updateState, bkFlags_updateState]
  · split
    · rw [bkFlags_updateState, bkFlags_updateState]
    · rw [bkFlags_updateState]

theorem data_showAvailableTimeSlots (env : Env) (db : Db)
    (b biz u : String) (st : ConversationState) :
    ∀ c ∈ (showAvailableTimeSlots env db b biz u st).1.bookingConvos,
      bkMatches b u c = true → c.collectedData = st.collectedData := by
  unfold showAvailableTimeSlots
  unfold showAvailableDates
  dsimp only
  split
  · intro c hc hm
    exact (mem_updateState_data _ b u _ c hc hm).1
  · split
    · intro c hc hm
      exact (mem_updateState_data _ b u _ c hc hm).1
    · intro c hc hm
      exact (mem_updateState_data _ b u _ c hc hm).1

/-- C5: in state CONFIRMING, on an affirmative answer whose
reservation attempt fails because the slot is taken, the turn does
not complete the conversation (identity and completion flags of every
row are unchanged), persists the rewind to `SHOWING_TIME_SLOTS`
(followed only by the re-display writes), and leaves every field of
the collected data unchanged. -/
theorem handleConfirmation_slot_taken (env : Env) (db : Db) (b biz u msg : String)
    (st : ConversationState)
    (_hstep : st.currentStep = BookingState.confirming)
    (hyes : validateConfirmation msg = some true)
    (htaken : is_time_slot_available db.bookings biz
      (st.collectedData.bookingDate.getD "")
      (st.collectedData.bookingTime.getD 0) = false) :
    (∃ rest, (handleConfirmation env db b biz u msg st).1.stepWrites =
      db.stepWrites ++ (BookingState.showing_time_slots :: rest)) ∧
    bkFlags (handleConfirmation env db b biz u msg st).1 = bkFlags db ∧
    (∀ c ∈ (handleConfirmation env db b biz u msg st).1.bookingConvos,
      bkMatches b u c = true → c.collectedData = st.collectedData) := by
  unfold handleConfirmation
  rw [hyes]
  dsimp only
  unfold create_booking_safe
  dsimp only
  rw [htaken]
  simp only [Bool.false_eq_true, not_false_eq_true, if_true, if_false, List.append_nil]
  try dsimp only
  refine ⟨?_, ?_, ?_⟩
  · obtain ⟨r, hr⟩ := showAvailableTimeSlots_stepWrites env
      (updateState { db with bookings := db.bookings } b u
        { st with currentStep := BookingState.showing_time_slots }) b biz u
      { st with currentStep := BookingState.showing_time_slots }
    refine ⟨r, ?_⟩
    rw [hr, updateState_stepWrites]
    rw [List.append_assoc]
    rfl
  · rw [bkFlags_showAvailableTimeSlots, bkFlags_updateState]
  · intro c hc hm
    exact data_showAvailableTimeSlots env _ b biz u _ c hc hm

/-! ## C6: sliding expiry and the background sweep -/

/-- C6: every booking turn, whatever the state, leaves every
still-active conversation row of the pair with
`expiresAt = now + 30 minutes` (a sliding window); and the periodic
sweep sends no message through any channel adapter, and flips
`isCompleted` to true exactly on the non-completed rows whose expiry
is strictly in the past, changing no other field of any row. -/
theorem booking_sliding_expiry_and_sweep :
    (∀ (env : Env) (db : Db) (b biz u msg : String) (now : Nat),
      ∀ c ∈ (handleBookingMessage env db b biz u msg now).1.bookingConvos,
        bkMatches b u c = true → c.expiresAt = now + expiryWindowMs) ∧
    (∀ (db : Db) (now : Nat), (cleanupExpiredConversations db now).2.1 = []) ∧
    (∀ (db : Db) (now : Nat) (i : Nat),
      match db.bookingConvos[i]?,
        (cleanupExpiredConversations db now).1.bookingConvos[i]? with
      | some old, some new =>
        new.isCompleted = (old.isCompleted || decide (old.expiresAt < now)) ∧
        new.botId = old.botId ∧ new.customerPhone = old.customerPhone ∧
        new.collectedData = old.collectedData ∧ new.currentStep = old.currentStep ∧
        new.expiresAt = old.expiresAt
      | none, none => True
      | _, _ => False) := by
  refine ⟨handleBookingMessage_expiry, fun _ _ => rfl, ?_⟩
  intro db now i
  show match db.bookingConvos[i]?,
      (db.bookingConvos.map (fun c =>
        if c.expiresAt < now && !c.isCompleted then { c with isCompleted := true }
        else c))[i]? with
    | some old, some new =>
      new.isCompleted = (old.isCompleted || decide (old.expiresAt < now)) ∧
      new.botId = old.botId ∧ new.customerPhone = old.customerPhone ∧
      new.collectedData = old.collectedData ∧ new.currentStep = old.currentStep ∧
      new.expiresAt = old.expiresAt
    | none, none => True
    | _, _ => False
  rw [List.getElem?_map]
  cases ho : db.bookingConvos[i]? with
  | none => exact trivial
  | some old =>
    dsimp only [Option.map]
    by_cases h : (old.expiresAt < now && !old.isCompleted) = true
    · rw [if_pos h]
      have h' : decide (old.expiresAt < now) = true ∧ old.isCompleted = false := by
        simpa [Bool.and_eq_true, Bool.not_eq_true'] using h
      refine ⟨?_, rfl, rfl, rfl, rfl, rfl⟩
      rw [h'.2, h'.1]
      rfl
    · rw [if_neg h]
      refine ⟨?_, rfl, rfl, rfl, rfl, rfl⟩
      cases hc : old.isCompleted
      · have hd : decide (old.expiresAt < now) = false := by
          cases hdd : decide (old.expiresAt < now)
          · rfl
          · exfalso
            apply h
            rw [hdd, hc]
            rfl
        rw [hd]
        rfl
      · simp

/-- Collected data of a conversation that has reached CONFIRMING. -/
def cdConfirm : CollectedData :=
  { customerPhone := "u1", customerName := some "John", bookingFor := some "self",
    gender := some "male", serviceId := some "s1", serviceName := some "Haircut",
    servicePrice := some 500, serviceDuration := some 30,
    bookingDate := some "2025-10-20", bookingTime := some 600 }

def stConfirm : ConversationState :=
  { currentStep := BookingState.confirming, collectedData := cdConfirm }

/-- A competing pending reservation occupying the chosen slot. -/
def takenBooking : Booking :=
  { business_id := "b1", bot_id := "bot2", customer_name := "Other",
    customer_phone := "222", booking_for := "self", gender := "female",
    service_id := some "s1", service_name := "Haircut", service_price := 500,
    booking_date := "2025-10-20", booking_time := 600, duration := 30,
    status := "pending", notes := none }

def convoConfirm : BookingConvoRow :=
  { botId := "bot1", businessId := "b1", customerPhone := "u1",
    collectedData := cdConfirm, currentStep := BookingState.confirming,
    isCompleted := false, expiresAt := 99 }

/-- Store with the conversation at CONFIRMING and the slot already
taken. -/
def dbConfirm : Db :=
  { dbFix with
      bookingConvos := [convoConfirm]
      bookings := [takenBooking] }

/-- Witness for `handleConfirmation_slot_taken` at a concrete
conversation. -/
theorem handleConfirmation_slot_taken_witness :
    (∃ rest, (handleConfirmation envFix dbConfirm "bot1" "b1" "u1" "yes"
        stConfirm).1.stepWrites =
      dbConfirm.stepWrites ++ (BookingState.showing_time_slots :: rest)) ∧
    bkFlags (handleConfirmation envFix dbConfirm "bot1" "b1" "u1" "yes"
      stConfirm).1 = bkFlags dbConfirm ∧
    (∀ c ∈ (handleConfirmation envFix dbConfirm "bot1" "b1" "u1" "yes"
        stConfirm).1.bookingConvos,
      bkMatches "bot1" "u1" c = true → c.collectedData = stConfirm.collectedData) :=
  handleConfirmation_slot_taken envFix dbConfirm "bot1" "b1" "u1" "yes" stConfirm
    rfl rfl rfl

/-- The conversation row after the slot-taken turn at time 5000. -/
def c6row : BookingConvoRow :=
  { botId := "bot1", businessId := "b1", customerPhone := "u1",
    collectedData := cdConfirm, currentStep := BookingState.collecting_time,
    isCompleted := false, expiresAt := 1805000 }

/-- Witness for `booking_sliding_expiry_and_sweep`: the row left by a
turn at time 5000 carries expiry `5000 + 30 minutes`. -/
theorem booking_sliding_expiry_and_sweep_witness :
    c6row.expiresAt = 5000 + expiryWindowMs :=
  booking_sliding_expiry_and_sweep.1 envFix dbConfirm "bot1" "b1" "u1" "yes" 5000
    c6row (by decide) rfl

/-! ## C8, C9: configuration toggles and the booking-for validator -/

theorem cancelConversation_no_active (db : Db) (b u : String) :
    ∀ c ∈ (cancelConversation db b u).bookingConvos, bkMatches b u c = false := by
  intro c hc
  unfold cancelConversation at hc
  rw [mapActiveBk_bookingConvos] at hc
  obtain ⟨c0, _, rfl⟩ := List.mem_map.mp hc
  by_cases h0 : bkMatches b u c0 = true
  · rw [if_pos h0]
    unfold bkMatches
    simp
  · rw [if_neg h0]
    exact Bool.not_eq_true _ ▸ h0

theorem showServices_stepWrites (env : Env) (db : Db) (b biz u : String)
    (st : ConversationState) :
    ∃ r, (showServices env db b biz u st).1.stepWrites = db.stepWrites ++ r := by
  unfold showServices
  dsimp only
  split
  · exact ⟨[], by rw [List.append_nil]; rfl⟩
  · exact ⟨[BookingState.collecting_service], rfl⟩

theorem data_showServices (env : Env) (db : Db) (b biz u : String)
    (st : ConversationState) :
    ∀ c ∈ (showServices env db b biz u st).1.bookingConvos,
      bkMatches b u c = true → c.collectedData = st.collectedData := by
  unfold showServices
  dsimp only
  split
  · intro c hc hm
    have := cancelConversation_no_active db b u c hc
    rw [this] at hm
    exact absurd hm (by simp)
  · intro c hc hm
    exact (mem_updateState_data _ b u _ c hc hm).1

/-- C8 (amended): after a valid name the engine reads
`booking_require_booking_for` from the settings row of *that turn*
and enters COLLECTING_BOOKING_FOR exactly when it is on — otherwise
it enters COLLECTING_GENDER unconditionally, without consulting
`booking_require_gender`; and after a valid booking-for answer it
reads `booking_require_gender` from the settings row of *that turn*
and enters COLLECTING_GENDER exactly when it is on, otherwise
SHOWING_SERVICES.  The toggles are thus consulted per turn, not once
per conversation start. -/
theorem booking_config_toggles_amended :
    (∀ (db : Db) (b u msg : String) (st : ConversationState) (name : String),
      validateName msg = some name →
      (handleNameInput db b u msg st).1.stepWrites =
        db.stepWrites ++ [if requireBookingFor db.settings then
          BookingState.collecting_booking_for else BookingState.collecting_gender]) ∧
    (∀ (env : Env) (db : Db) (b biz u msg : String) (st : ConversationState)
      (v : String),
      validateBookingFor msg = some v →
      ((handleBookingForInput env db b biz u msg st).1.stepWrites.drop
        db.stepWrites.length).head? =
        some (if requireGender db.settings then BookingState.collecting_gender
          else BookingState.showing_services)) := by
  constructor
  · intro db b u msg st name hn
    unfold handleNameInput
    rw [hn]
    dsimp only
    split
    · rw [updateState_stepWrites]
    · rw [updateState_stepWrites]
  · intro env db b biz u msg st v hv
    unfold handleBookingForInput
    rw [hv]
    dsimp only
    split
    · rw [updateState_stepWrites, List.drop_left]
      rfl
    · obtain ⟨r, hr⟩ := showServices_stepWrites env
        (updateState db b u { st with
          collectedData := { st.collectedData with bookingFor := some v }
          currentStep := BookingState.showing_services }) b biz u
        { st with
          collectedData := { st.collectedData with bookingFor := some v }
          currentStep := BookingState.showing_services }
      rw [hr, updateState_stepWrites, List.append_assoc, List.drop_left]
      rfl

def settingsOff : BotSettings :=
  { booking_enabled := some true
    booking_require_booking_for := some false
    booking_require_gender := some false }

def cdName : CollectedData := { customerPhone := "u1" }

def stName : ConversationState :=
  { currentStep := BookingState.collecting_name, collectedData := cdName }

def convoName : BookingConvoRow :=
  { botId := "bot1", businessId := "b1", customerPhone := "u1",
    collectedData := cdName, currentStep := BookingState.collecting_name,
    isCompleted := false, expiresAt := 999999 }

def dbToggles : Db :=
  { dbFix with settings := settingsOff, bookingConvos := [convoName] }

/-- C8 counterexample: with `booking_require_gender = false` (and
`booking_require_booking_for = false`), a valid name still moves the
conversation into COLLECTING_GENDER — the persisted step write is
`collecting_gender` although the gender requirement is disabled, so
"COLLECTING_GENDER is entered iff the configuration enables
requireGender" is false. -/
theorem booking_config_toggles_counterexample :
    requireGender dbToggles.settings = false ∧
    requireBookingFor dbToggles.settings = false ∧
    (handleNameInput dbToggles "bot1" "u1" "John" stName).1.stepWrites =
      [BookingState.collecting_gender] :=
  ⟨rfl, rfl, rfl⟩

theorem booking_config_toggles_amended_witness :
    (handleNameInput dbToggles "bot1" "u1" "John" stName).1.stepWrites =
      dbToggles.stepWrites ++ [if requireBookingFor dbToggles.settings then
        BookingState.collecting_booking_for else BookingState.collecting_gender] :=
  booking_config_toggles_amended.1 dbToggles "bot1" "u1" "John" stName "John" rfl

/-- C9 (amended): `validateBookingFor` accepts exactly the inputs of 2
to 100 raw characters whose trimmed lowercase form is `self`, `myself`
or `me`, or passes the name character class; the produced (and, per
the second part, stored) value is the trimmed lowercase input
*verbatim* — `myself`/`me` are **not** normalized to `self`. -/
theorem bookingFor_validation_amended :
    (∀ (s v : String), validateBookingFor s = some v ↔
      (2 ≤ s.length ∧ s.length ≤ 100 ∧ v = strLower (strTrim s) ∧
        (v = "self" ∨ v = "myself" ∨ v = "me" ∨ allNameChars v = true))) ∧
    (∀ (env : Env) (db : Db) (b biz u msg : String) (st : ConversationState)
      (v : String), validateBookingFor msg = some v →
      ∀ c ∈ (handleBookingForInput env db b biz u msg st).1.bookingConvos,
        bkMatches b u c = true → c.collectedData.bookingFor = some v) := by
  constructor
  · intro s v
    constructor
    · intro hv
      unfold validateBookingFor at hv
      dsimp only at hv
      split_ifs at hv with h
      · injection hv with hv
        subst hv
        simp only [Bool.and_eq_true, Bool.or_eq_true, decide_eq_true_eq] at h
        exact ⟨h.1.1, h.1.2, rfl, by tauto⟩
    · rintro ⟨h1, h2, rfl, hor⟩
      have hc : (decide (2 ≤ s.length) && decide (s.length ≤ 100) &&
          (decide (strLower (strTrim s) = "self") ||
            decide (strLower (strTrim s) = "myself") ||
            decide (strLower (strTrim s) = "me") ||
            allNameChars (strLower (strTrim s)))) = true := by
        simp only [Bool.and_eq_true, Bool.or_eq_true, decide_eq_true_eq]
        refine ⟨⟨h1, h2⟩, ?_⟩
        tauto
      unfold validateBookingFor
      dsimp only
      rw [if_pos hc]
  · intro env db b biz u msg st v hv c hc hm
    revert hc
    unfold handleBookingForInput
    rw [hv]
    dsimp only
    split
    · intro hc
      have := (mem_updateState_data _ b u _ c hc hm).1
      rw [this]
    · intro hc
      have := data_showServices env
        (updateState db b u { st with
          collectedData := { st.collectedData with bookingFor := some v }
          currentStep := BookingState.showing_services }) b biz u
        { st with
          collectedData := { st.collectedData with bookingFor := some v }
          currentStep := BookingState.showing_services } c hc hm
      rw [this]

def cdBF : CollectedData := { customerPhone := "u1", customerName := some "John" }

def stBF : ConversationState :=
  { currentStep := BookingState.collecting_booking_for, collectedData := cdBF }

def convoBF : BookingConvoRow :=
  { botId := "bot1", businessId := "b1", customerPhone := "u1",
    collectedData := cdBF, currentStep := BookingState.collecting_booking_for,
    isCompleted := false, expiresAt := 999999 }

def dbBF : Db := { dbFix with bookingConvos := [convoBF] }

/-- C9 counterexample: the input `myself` is accepted but the value
kept — and persisted into the conversation row — is `"myself"`, not
the claimed normalized `"self"`. -/
theorem bookingFor_normalization_counterexample :
    validateBookingFor "myself" = some "myself" ∧
    ((handleBookingForInput envFix dbBF "bot1" "b1" "u1" "myself" stBF).1.bookingConvos.map
      (fun c => c.collectedData.bookingFor)) = [some "myself"] ∧
    some "myself" ≠ some "self" :=
  ⟨rfl, rfl, by decide⟩

theorem bookingFor_validation_amended_witness :
    validateBookingFor " Myself" = some "myself" :=
  (bookingFor_validation_amended.1 " Myself" "myself").mpr
    ⟨by decide, by decide, by decide, Or.inr (Or.inl (by decide))⟩

/-! ## C10: unmatched input on a show_options step -/

/-- A row of a by-id update that carries the id is the image of a row
of the original table carrying the id. -/
theorem mem_mapById_target (db : Db) (cid : Nat)
    (f : WorkflowConvoRow → WorkflowConvoRow) :
    ∀ c ∈ (mapWorkflowById db cid f).workflowConvos, c.id = cid →
      ∃ c0, c0 ∈ db.workflowConvos ∧ c0.id = cid ∧ c = f c0 := by
  intro c hc hcid
  rw [mapWorkflowById_workflowConvos] at hc
  obtain ⟨c0, hc0, rfl⟩ := List.mem_map.mp hc
  by_cases h : c0.id = cid
  · rw [if_pos h]
    exact ⟨c0, hc0, h, rfl⟩
  · rw [if_neg h] at hcid
    exact absurd hcid h

/-- C10 (amended): on a `show_options` step an input that
`parseOption` does not resolve (`none`) is handled: the turn reports
handled, the conversation row keeps its state *unchanged* (the input
is discarded) and moves to the explicit `next` of the step, to the
positional successor when `next` is absent, or is completed when
neither exists.  However an in-range *fractional* number such as
`2.5` is **not** unmatched: `parseOption` resolves it to the
fractional zero-based position and the rendered number itself
(`1.5`) is stored, because a fractional index reads `undefined` out
of the options array. -/
theorem show_options_unmatched_amended
    (env : Env) (db : Db) (convo : WorkflowConvoRow) (biz msg : String) (now : Nat)
    (wf : WorkflowRecord) (i : Nat) (step : WorkflowStep)
    (hwf : db.workflows.find? (fun w => w.id = convo.workflowId) = some wf)
    (hidx : wf.steps.findIdx? (fun s => stepId s = convo.currentStepId) = some i)
    (hstep : wf.steps.get? i = some step)
    (hty : step.type = StepType.show_options)
    (hpo : parseOption msg step.options = none) :
    (continueConversation env db convo biz msg now).1 = true ∧
    (∀ c ∈ (continueConversation env db convo biz msg now).2.1.workflowConvos,
      c.id = convo.id →
        c.state = convo.state ∧
        (match jsOrOpt step.next ((wf.steps.get? (i + 1)).bind (fun s => s.id)) with
         | none => c.isCompleted = true
         | some nid => c.currentStepId = nid)) ∧
    (∀ (v : JsNum) (options : List OptionItem) (m : String),
      jsNumber (strLower (strTrim m)) = some v →
      (v.geOne && v.leLen options.length) = true →
      v.fracDigits ≠ "" →
      parseOption m options = some v.minusOne ∧
      optionStoredValue options v.minusOne = JsNum.render v.minusOne) := by
  unfold continueConversation
  rw [hwf]
  dsimp only
  rw [hidx]
  dsimp only
  rw [hstep]
  dsimp only
  rw [if_neg (show ¬(step.type = StepType.start_booking) by simp [hty])]
  rw [if_neg (show ¬(step.type = StepType.collect_field) by simp [hty]),
    if_pos hty, hpo]
  dsimp only
  refine ⟨?_, ?_, ?_⟩
  · repeat' split
    all_goals rfl
  · split
    · intro c hc hcid
      split at hc
      · obtain ⟨c0, hm0, hi0, rfl⟩ := mem_mapById_target db convo.id _ c hc hcid
        exact ⟨rfl, rfl⟩
      · obtain ⟨c0, hm0, hi0, rfl⟩ := mem_mapById_target db convo.id _ c hc hcid
        exact ⟨rfl, rfl⟩
    · rename_i nid hnid
      split
      · intro c hc hcid
        obtain ⟨c0, hm0, hi0, rfl⟩ := mem_mapById_target db convo.id _ c hc hcid
        exact ⟨rfl, rfl⟩
      · rename_i nx hnx
        split
        · show ∀ c ∈ (handleBookingMessage env
              (mapWorkflowById (mapWorkflowById db convo.id _) convo.id _)
              convo.botId biz convo.userKey msg now).1.workflowConvos,
            c.id = convo.id → c.state = convo.state ∧ c.currentStepId = nid
          intro c hc hcid
          rw [handleBookingMessage_wfFrame] at hc
          obtain ⟨c1, hm1, hi1, rfl⟩ :=
            mem_mapById_target _ convo.id _ c hc hcid
          obtain ⟨c0, hm0, hi0, rfl⟩ :=
            mem_mapById_target db convo.id _ c1 hm1 hi1
          exact ⟨rfl, rfl⟩
        · intro c hc hcid
          obtain ⟨c0, hm0, hi0, rfl⟩ := mem_mapById_target db convo.id _ c hc hcid
          exact ⟨rfl, rfl⟩
  · intro v options m hnum hrange hfrac
    constructor
    · unfold parseOption
      dsimp only
      rw [hnum]
      dsimp only
      rw [if_pos hrange]
    · unfold optionStoredValue
      rw [if_neg (show ¬(v.minusOne.fracDigits = "") from hfrac)]

def wfOptsStep : WorkflowStep :=
  { id := some "o1", type := StepType.show_options, prompt_message := some "Choose",
    options_field_key := some "choice",
    options := [{ label := "A", value := none }, { label := "B", value := none },
      { label := "C", value := none }] }

def wfOptsStep2 : WorkflowStep :=
  { id := some "o2", type := StepType.collect_field, prompt_message := some "Next" }

def wfOpts : WorkflowRecord :=
  { id := 9, botId := "bot1", isActive := true, published := true,
    triggerKeywords := ["opt"], steps := [wfOptsStep, wfOptsStep2],
    saveToDatabase := false }

def convoOpts : WorkflowConvoRow :=
  { id := 3, botId := "bot1", userKey := "u1", workflowId := 9,
    currentStepId := "o1", state := [], isCompleted := false, channel := "web" }

def dbOpts : Db :=
  { dbFix with workflows := [wfOpts], workflowConvos := [convoOpts] }

/-- C10 counterexample: on a `show_options` step with options
`A`/`B`/`C`, the input `2.5` matches no valid 1-based integer index
and no label (second conjunct), yet the turn is **not** silently
discarded from the collected state: the row advances to `o2` with
`("choice", "1.5")` recorded — the JS fractional number `2.5` passes
the range check and `1.5` (the zero-based position) is stored. -/
theorem show_options_unmatched_counterexample :
    ((continueConversation envFix dbOpts convoOpts "b1" "2.5" 1000).2.1.workflowConvos.map
      (fun c => (c.currentStepId, c.state))) = [("o2", [("choice", "1.5")])] ∧
    (wfOptsStep.options.findIdx?
      (fun o => strLower o.label = strLower (strTrim "2.5"))) = none ∧
    (jsNumber (strLower (strTrim "2.5"))).map (fun v => v.fracDigits) = some "5" :=
  ⟨rfl, rfl, rfl⟩

theorem show_options_unmatched_amended_witness :
    (continueConversation envFix dbOpts convoOpts "b1" "zzz" 1000).1 = true :=
  (show_options_unmatched_amended envFix dbOpts convoOpts "b1" "zzz" 1000
    wfOpts 0 wfOptsStep rfl rfl rfl rfl rfl).1
